import Mathlib

/-!
Verification of the build orchestration and output-classification engine of
XcodeBuildMCP (`src/utils/build-utils.ts`).

The TypeScript module is shallowly embedded: strings are Lean `String`s,
JavaScript `String.prototype.trim` is modelled over the character list, the
injected `CommandExecutor` is modelled by its observable outcomes (a stream of
results or thrown errors, indexed by invocation order), and the module-level
`cachedXcbeautifyAvailable` variable is threaded explicitly as state.
-/

namespace BuildUtils

/-- Whitespace characters removed by JavaScript `String.prototype.trim`
(ASCII whitespace, NBSP, BOM and the Unicode line/paragraph separators). -/
def isJsWhitespace (c : Char) : Bool :=
  c == ' ' || c == '\t' || c == '\n' || c == '\r' || c == '\x0b' || c == '\x0c' ||
  c == '\xa0' || c == '﻿' || c == ' ' || c == ' '

/-- Trim on the character list: drop leading and trailing whitespace. -/
def trimChars (l : List Char) : List Char :=
  List.rdropWhile isJsWhitespace (List.dropWhile isJsWhitespace l)

/-- Model of JavaScript `line.trim()`. -/
def jsTrim (s : String) : String :=
  String.mk (trimChars s.data)

/-- Split a character list at every newline (the separators are consumed;
`[] ↦ [[]]`, exactly like JavaScript `split('\n')`). -/
def splitLinesChars : List Char → List (List Char)
  | [] => [[]]
  | c :: cs =>
    match splitLinesChars cs with
    | [] => [[]]
    | l :: ls => if c = '\n' then [] :: l :: ls else (c :: l) :: ls

/-- Model of JavaScript `text.split('\n')`. -/
def splitLines (s : String) : List String :=
  (splitLinesChars s.data).map String.mk

/-- Does `l` start with the character sequence `pat`? -/
def startsWithSeq : List Char → List Char → Bool
  | [], _ => true
  | _ :: _, [] => false
  | p :: ps, c :: cs => p == c && startsWithSeq ps cs

/-- Does `l` contain the character sequence `pat` as a contiguous run? -/
def containsSeq (pat : List Char) : List Char → Bool
  | [] => startsWithSeq pat []
  | c :: cs => startsWithSeq pat (c :: cs) || containsSeq pat cs

/-- Case-insensitive marker test: model of the regexes `/warning:/i` and
`/error:/i` (the patterns used in the source are lowercase literals, so the
test lowercases the subject line). -/
def containsCI (pat s : String) : Bool :=
  containsSeq pat.data (s.data.map Char.toLower)

/-- Classification tag produced by `grepWarningsAndErrors`. -/
inductive EntryType
  | warning
  | error
deriving DecidableEq, Repr

instance : BEq EntryType := ⟨fun a b => decide (a = b)⟩

/-- One entry of the classifier output: `{ type, content }` in the source. -/
structure GrepEntry where
  type : EntryType
  content : String
deriving DecidableEq, Repr

/-- Per-line classification: the body of the `.map` callback in
`grepWarningsAndErrors` (build-utils.ts lines 162-166) — warning checked
first, then error, else `null`. -/
def classifyLine (content : String) : Option GrepEntry :=
  if containsCI "warning:" content then some ⟨EntryType.warning, content⟩
  else if containsCI "error:" content then some ⟨EntryType.error, content⟩
  else none

/-- Embeds `grepWarningsAndErrors` (build-utils.ts lines 159-168):
split on newlines, classify each line, keep the non-null entries. -/
def grepWarningsAndErrors (text : String) : List GrepEntry :=
  (splitLines text).filterMap classifyLine

/-- Worker for `dedupeLines`: `seen` models the `Set` of already-emitted
trimmed lines (membership is all the source uses). -/
def dedupeGo (seen : List String) : List String → List String
  | [] => []
  | line :: rest =>
    let trimmed := jsTrim line
    if trimmed = "" then dedupeGo seen rest
    else if trimmed ∈ seen then dedupeGo seen rest
    else trimmed :: dedupeGo (trimmed :: seen) rest

/-- Embeds `dedupeLines` (build-utils.ts lines 47-58): trim each line, drop
empties, drop lines whose trimmed text was already seen, keep first-seen
order. -/
def dedupeLines (lines : List String) : List String :=
  dedupeGo [] lines

/-- Raw (pre-dedup) contents of the stdout lines classified as warnings. -/
def stdoutWarningLines (text : String) : List String :=
  ((grepWarningsAndErrors text).filter (fun e => e.type == EntryType.warning)).map
    GrepEntry.content

/-- Raw (pre-dedup) contents of the stdout lines classified as errors. -/
def stdoutErrorLines (text : String) : List String :=
  ((grepWarningsAndErrors text).filter (fun e => e.type == EntryType.error)).map
    GrepEntry.content

/-- Raw (pre-dedup) stderr-derived error lines: each non-empty trimmed stderr
line prefixed with the fixed marker (build-utils.ts lines 370-374). -/
def stderrTaggedLines (err : String) : List String :=
  (((splitLines err).map jsTrim).filter (fun l => l ≠ "")).map
    (fun l => "[stderr] " ++ l)

/-- Join a list of strings with newlines, the model of JavaScript
`array.join('\n')`. -/
def joinWithNewlines : List String → String
  | [] => ""
  | [x] => x
  | x :: y :: rest => x ++ "\n" ++ joinWithNewlines (y :: rest)

/-- Result of the output-classification step. -/
structure ClassifiedOutput where
  warnings : List String
  errors : List String
deriving DecidableEq, Repr

/-- Embeds the classification step of `executeXcodeBuildCommand`
(build-utils.ts lines 360-377): dedupe the warning lines, dedupe the
stdout error lines, dedupe the tagged stderr lines, then dedupe the
concatenation of the two error sources. -/
def classifyBuildOutput (stdout stderr : String) : ClassifiedOutput :=
  let warnings := dedupeLines (stdoutWarningLines stdout)
  let errorsFromStdout := dedupeLines (stdoutErrorLines stdout)
  let errorsFromStderr := dedupeLines (stderrTaggedLines stderr)
  ⟨warnings, dedupeLines (errorsFromStdout ++ errorsFromStderr)⟩

/-- The `XcodePlatform` enum from `types/common.ts`. -/
inductive XcodePlatform
  | macOS
  | iOS
  | iOSSimulator
  | watchOS
  | watchOSSimulator
  | tvOS
  | tvOSSimulator
  | visionOS
  | visionOSSimulator
deriving DecidableEq, Repr

/-- String value of each `XcodePlatform` enum member. -/
def platformName : XcodePlatform → String
  | XcodePlatform.macOS => "macOS"
  | XcodePlatform.iOS => "iOS"
  | XcodePlatform.iOSSimulator => "iOS Simulator"
  | XcodePlatform.watchOS => "watchOS"
  | XcodePlatform.watchOSSimulator => "watchOS Simulator"
  | XcodePlatform.tvOS => "tvOS"
  | XcodePlatform.tvOSSimulator => "tvOS Simulator"
  | XcodePlatform.visionOS => "visionOS"
  | XcodePlatform.visionOSSimulator => "visionOS Simulator"

/-- The four simulator platforms listed in build-utils.ts lines 227-232. -/
def isSimulatorPlatform (p : XcodePlatform) : Bool :=
  decide (p = XcodePlatform.iOSSimulator ∨ p = XcodePlatform.watchOSSimulator ∨
    p = XcodePlatform.tvOSSimulator ∨ p = XcodePlatform.visionOSSimulator)

/-- `SharedBuildParams` from `types/common.ts`; absent optional fields are
`none`, and an absent `extraArgs` is the empty list (the source only reads
its elements after a length check, so `undefined` and `[]` coincide). -/
structure SharedBuildParams where
  workspacePath : Option String
  projectPath : Option String
  scheme : String
  configuration : String
  derivedDataPath : Option String
  extraArgs : List String
deriving DecidableEq, Repr

/-- The nested `xcbeautify` option object of `PlatformBuildOptions`. -/
structure XcbeautifyOptions where
  quietLevel : Option Nat
deriving DecidableEq, Repr

/-- `PlatformBuildOptions` from `types/common.ts`. The source field
`logPrefix` is named `logLabel` here. -/
structure PlatformBuildOptions where
  platform : XcodePlatform
  simulatorName : Option String
  simulatorId : Option String
  deviceId : Option String
  useLatestOS : Option Bool
  arch : Option String
  logLabel : String
  xcbeautify : Option XcbeautifyOptions
deriving DecidableEq, Repr

/-- Outcome of one external command (`CommandResponse` plus the exit code
read by the orchestrator); `exitCode = none` models `undefined`. -/
structure CmdResult where
  success : Bool
  output : String
  error : Option String
  exitCode : Option Int
deriving DecidableEq, Repr

/-- A thrown JavaScript `Error`: its message and its optional `code`
property (`none` models an error object without a `code` property). -/
structure JsError where
  message : String
  code : Option String
deriving DecidableEq, Repr

/-- Behaviour of one awaited external call: either a result or a thrown
error. -/
abbrev ExecOutcome := Except JsError CmdResult

/-- One call to the logger: level, message, and the `sentry` flag of the
options object (`none` when the call passes no options). -/
structure LogCall where
  level : String
  message : String
  sentry : Option Bool
deriving DecidableEq, Repr

/-- One text content block of a tool response. -/
structure ContentBlock where
  text : String
deriving DecidableEq, Repr

/-- `ToolResponse` from `types/common.ts`, restricted to text blocks as
produced by this module; `isError = none` models an absent field. -/
structure ToolResponse where
  content : List ContentBlock
  isError : Option Bool
deriving DecidableEq, Repr

/-- Modelled from the spec: `createTextResponse` (`utils/validation.ts`, not
among the provided sources) wraps a message in a single text block together
with the failure flag, as every caller and test in the sources assumes. -/
def createTextResponse (text : String) (isErr : Bool) : ToolResponse :=
  ⟨[⟨text⟩], some isErr⟩

/-- Modelled from the spec: `consolidateContentForClaudeCode`
(`utils/validation.ts`, not among the provided sources). The spec fixes the
block structure as the bit-exact caller contract and the provided tests
assert on individual blocks, so outside the special client accommodation the
response is returned unchanged. -/
def consolidateContentForClaudeCode (r : ToolResponse) : ToolResponse := r

/-- The two render modes read from `XCODEBUILDMCP_BUILD_OUTPUT`. -/
inductive BuildOutputMode
  | guided
  | diagnostics
deriving DecidableEq, Repr

/-- Embeds `getXcbeautifyArgs` (build-utils.ts lines 121-125). -/
def getXcbeautifyArgs (quietLevel : Nat) : List String :=
  if quietLevel = 1 then ["xcbeautify", "-q"]
  else if quietLevel = 2 then ["xcbeautify", "-qq"]
  else ["xcbeautify"]

/-- Embeds `getXcbeautifyInstallPrompt` (build-utils.ts lines 127-134); the
literals are copied byte-for-byte from the source file. -/
def getXcbeautifyInstallPrompt : String :=
  joinWithNewlines
    ["‚ö†Ô∏è xcbeautifyÍ∞Ä ÏÑ§ÏπòÎêòÏñ¥ ÏûàÏßÄ ÏïäÏïÑ Í∏∞Î≥∏ Ï∂úÎ†• Ìè¨Îß∑ÌåÖÏùÑ Ï†ÅÏö©Ìï† Ïàò ÏóÜÏäµÎãàÎã§.",
     "ÏÑ§Ïπò Î∞©Î≤ï:",
     "- Homebrew: brew install xcbeautify",
     "- ÎòêÎäî: https://github.com/cpisciotta/xcbeautify"]

/-- Result of one call to the availability probe: the returned flag, the
module cache afterwards, and how many times the probe invoked the injected
executor. -/
structure ProbeResult where
  available : Bool
  cacheAfter : Option Bool
  calls : Nat
deriving DecidableEq, Repr

/-- Embeds `isXcbeautifyAvailable` (build-utils.ts lines 90-108) with the
module-level `cachedXcbeautifyAvailable` variable passed explicitly: a
filled cache is returned as is; otherwise the executor runs once and its
success flag is cached, a thrown executor error caching `false`. -/
def isXcbeautifyAvailable (cache : Option Bool) (exec : ExecOutcome) : ProbeResult :=
  match cache with
  | some b => ⟨b, some b, 0⟩
  | none =>
    match exec with
    | Except.ok r => ⟨r.success, some r.success, 1⟩
    | Except.error _ => ⟨false, some false, 1⟩

/-- Embeds `resetXcbeautifyCache` (build-utils.ts lines 86-88): the cache
value after a reset. -/
def resetXcbeautifyCache : Option Bool := none

/-- `pushSection` inside `formatDiagnosticsBlocks` (build-utils.ts lines
66-73): nothing for an empty list, otherwise one block of the title and one
bulleted line per entry. -/
def pushSection (title : String) (lines : List String) : List ContentBlock :=
  if lines.length = 0 then []
  else [⟨joinWithNewlines (title :: lines.map (fun l => "- " ++ l))⟩]

/-- Embeds `formatDiagnosticsBlocks` (build-utils.ts lines 60-79). -/
def formatDiagnosticsBlocks (warnings errors : List String) : List ContentBlock :=
  pushSection ("‚ùå Errors (" ++ toString errors.length ++ ")") errors ++
    pushSection ("‚ö†Ô∏è Warnings (" ++ toString warnings.length ++ ")") warnings

/-- Modelled from the spec: `constructDestinationString` (`utils/xcode.ts`,
not among the provided sources), per §4.1 of the spec: a simulator id pins
the destination exactly; a simulator name appends `OS=latest` unless
`useLatestOS` is explicitly `false`; otherwise the platform alone, with an
optional architecture qualifier. -/
def constructDestinationString (platform : XcodePlatform) (simulatorName : Option String)
    (simulatorId : Option String) (useLatestOS : Option Bool) (arch : Option String) :
    String :=
  match simulatorId with
  | some id => "platform=" ++ platformName platform ++ ",id=" ++ id
  | none =>
    match simulatorName with
    | some n =>
      let base := "platform=" ++ platformName platform ++ ",name=" ++ n
      if useLatestOS.getD true then base ++ ",OS=latest" else base
    | none =>
      let base := "platform=" ++ platformName platform
      match arch with
      | some a => base ++ ",arch=" ++ a
      | none => base

/-- Embeds the destination-resolution section of `executeXcodeBuildCommand`
(build-utils.ts lines 226-288): an `Except.error` is the early-returned
error response, an `Except.ok` the destination string passed to
`-destination`. The final arm transliterates the source fallback for a
platform outside the listed ones (lines 286-288). -/
def resolveDestination (opts : PlatformBuildOptions) : Except ToolResponse String :=
  if isSimulatorPlatform opts.platform then
    match opts.simulatorId with
    | some _ =>
      Except.ok (constructDestinationString opts.platform none opts.simulatorId none none)
    | none =>
      match opts.simulatorName with
      | some _ =>
        Except.ok
          (constructDestinationString opts.platform opts.simulatorName none
            opts.useLatestOS none)
      | none =>
        Except.error
          (createTextResponse
            ("For " ++ platformName opts.platform ++
              " platform, either simulatorId or simulatorName must be provided")
            true)
  else if opts.platform = XcodePlatform.macOS then
    Except.ok
      (constructDestinationString opts.platform none none (some false) opts.arch)
  else if opts.platform = XcodePlatform.iOS then
    Except.ok
      (match opts.deviceId with
       | some d => "platform=iOS,id=" ++ d
       | none => "generic/platform=iOS")
  else if opts.platform = XcodePlatform.watchOS then
    Except.ok
      (match opts.deviceId with
       | some d => "platform=watchOS,id=" ++ d
       | none => "generic/platform=watchOS")
  else if opts.platform = XcodePlatform.tvOS then
    Except.ok
      (match opts.deviceId with
       | some d => "platform=tvOS,id=" ++ d
       | none => "generic/platform=tvOS")
  else if opts.platform = XcodePlatform.visionOS then
    Except.ok
      (match opts.deviceId with
       | some d => "platform=visionOS,id=" ++ d
       | none => "generic/platform=visionOS")
  else
    Except.error
      (createTextResponse ("Unsupported platform: " ++ platformName opts.platform) true)

/-- Ambient environment and injected collaborators of one orchestrator run:
the render mode, the test-environment flag, the xcodemake feature probes and
call outcomes, the injected executor (modelled by its observable outcomes,
indexed by invocation order; the argument vectors do not influence any
claim and are not tracked), and `path.dirname`. -/
structure BuildEnv where
  outputMode : BuildOutputMode
  isTestEnv : Bool
  xcodemakeEnabled : Bool
  xcodemakeAvailable : Bool
  makefileExists : Bool
  makeLogFileExists : Bool
  makeResult : ExecOutcome
  xcodemakeResult : ExecOutcome
  executor : Nat → ExecOutcome
  dirname : String → String

/-- Mutable context threaded through one run: the advisory message list
(`buildMessages`), the log calls made so far, the xcbeautify cache, and the
number of executor invocations so far. -/
structure RunState where
  messages : List ContentBlock
  logs : List LogCall
  cache : Option Bool
  execCalls : Nat

/-- Append one advisory message block. -/
def pushMsg (st : RunState) (t : String) : RunState :=
  { st with messages := st.messages ++ [⟨t⟩] }

/-- Record one logger call. -/
def pushLog (st : RunState) (level msg : String) (sentry : Option Bool) : RunState :=
  { st with logs := st.logs ++ [⟨level, msg, sentry⟩] }

/-- Flags and state after the pre-try section of `executeXcodeBuildCommand`
(build-utils.ts lines 153-207). -/
structure PreparedRun where
  enabledFlag : Bool
  availFlag : Bool
  st : RunState

/-- Embeds build-utils.ts lines 153-207: the start log, the xcodemake
feature probing and the three guided-mode advisory branches. -/
def prepareRun (params : SharedBuildParams) (opts : PlatformBuildOptions)
    (prefer : Bool) (action : String) (env : BuildEnv) (cache : Option Bool) :
    PreparedRun :=
  let st0 : RunState := ⟨[], [], cache, 0⟩
  let st1 := pushLog st0 "info"
    ("Starting " ++ opts.logLabel ++ " " ++ action ++ " for scheme " ++ params.scheme) none
  if env.xcodemakeEnabled && action == "build" then
    let availFlag := env.xcodemakeAvailable
    if availFlag && prefer then
      let st2 := pushLog st1 "info"
        "xcodemake is enabled but preferXcodebuild is set to true. Falling back to xcodebuild."
        none
      let st3 :=
        if env.outputMode = BuildOutputMode.guided then
          pushMsg st2
            "‚ö†Ô∏è incremental build support is enabled but preferXcodebuild is set to true. Falling back to xcodebuild."
        else st2
      ⟨env.xcodemakeEnabled, availFlag, st3⟩
    else if !availFlag then
      let st2 :=
        if env.outputMode = BuildOutputMode.guided then
          pushMsg st1 "‚ö†Ô∏è xcodemake is enabled but not available. Falling back to xcodebuild."
        else st1
      let st3 := pushLog st2 "info"
        "xcodemake is enabled but not available. Falling back to xcodebuild." none
      ⟨env.xcodemakeEnabled, availFlag, st3⟩
    else
      let st2 := pushLog st1 "info"
        "xcodemake is enabled and available, using it for incremental builds." none
      let st3 :=
        if env.outputMode = BuildOutputMode.guided then
          pushMsg st2 "‚ÑπÔ∏è xcodemake is enabled and available, using it for incremental builds."
        else st2
      ⟨env.xcodemakeEnabled, availFlag, st3⟩
  else ⟨env.xcodemakeEnabled, false, st1⟩

/-- Embeds build-utils.ts lines 210-219: the `-workspace`/`-project`
selection and the derived project directory; `workspacePath` wins and
`projectPath` is only consulted when no workspace path is given. -/
def xcodebuildBaseCommand (params : SharedBuildParams) (env : BuildEnv) :
    String × List String :=
  match params.workspacePath with
  | some w => (env.dirname w, ["xcodebuild", "-workspace", w])
  | none =>
    match params.projectPath with
    | some p => (env.dirname p, ["xcodebuild", "-project", p])
    | none => ("", ["xcodebuild"])

/-- Embeds the execution section of `executeXcodeBuildCommand`
(build-utils.ts lines 302-358): either the xcodemake path (replay via make
when both cache artifacts exist, else the Makefile generator) or the direct
path (xcbeautify probe outside the test environment, install-prompt
advisory, then exactly one executor invocation for the build). -/
def runBuildExec (prefer : Bool) (action : String) (env : BuildEnv)
    (enabledFlag availFlag : Bool) (st : RunState) : RunState × ExecOutcome :=
  if enabledFlag && availFlag && (action == "build") && !prefer then
    let stA := pushLog st "debug" ("Makefile exists: " ++ toString env.makefileExists) none
    let stB := pushLog stA "debug"
      ("Makefile log exists: " ++ toString env.makeLogFileExists) none
    if env.makefileExists && env.makeLogFileExists then
      (pushMsg stB "‚ÑπÔ∏è Using make for incremental build", env.makeResult)
    else
      (pushMsg stB "‚ÑπÔ∏è Generating Makefile with xcodemake (first build may take longer)",
        env.xcodemakeResult)
  else
    let shouldUseXcbeautify := !env.isTestEnv
    let probe :=
      if shouldUseXcbeautify then isXcbeautifyAvailable st.cache (env.executor st.execCalls)
      else ⟨false, st.cache, 0⟩
    let xcbAvailable := shouldUseXcbeautify && probe.available
    let st1 : RunState :=
      { st with cache := probe.cacheAfter, execCalls := st.execCalls + probe.calls }
    let st2 :=
      if shouldUseXcbeautify && !xcbAvailable then
        if env.outputMode = BuildOutputMode.guided then
          pushMsg st1 getXcbeautifyInstallPrompt
        else st1
      else st1
    ({ st2 with execCalls := st2.execCalls + 1 }, env.executor st2.execCalls)

/-- The spawn-error classification of the catch block (build-utils.ts lines
527-530): a thrown error whose `code` property is `ENOENT`, `EACCES` or
`EPERM`; `none` models an error without a `code` property, for which the
`in` test is false. -/
def isSpawnErrorCode : Option String → Bool
  | some c => c == "ENOENT" || c == "EACCES" || c == "EPERM"
  | none => false

/-- Text of the retry suggestion appended on an xcodemake-path failure with
no marker-classified stdout lines (build-utils.ts lines 434-437). -/
def xcodemakeRetrySuggestion : String :=
  "üí° Incremental build using xcodemake failed, suggest using preferXcodebuild option to try build again using slower xcodebuild command."

/-- The guided-mode success Next-Steps text (build-utils.ts lines 462-483);
`""` when the action or platform has none. -/
def nextStepsInfo (params : SharedBuildParams) (opts : PlatformBuildOptions)
    (action : String) : String :=
  if action == "build" then
    if opts.platform = XcodePlatform.macOS then
      "Next Steps:\n1. Get app path: get_mac_app_path(\x7b scheme: \x27" ++ params.scheme ++
        "\x27 \x7d)\n2. Get bundle ID: get_mac_bundle_id(\x7b appPath: \x27PATH_FROM_STEP_1\x27 \x7d)\n3. Launch: launch_mac_app(\x7b appPath: \x27PATH_FROM_STEP_1\x27 \x7d)"
    else if opts.platform = XcodePlatform.iOS then
      "Next Steps:\n1. Get app path: get_device_app_path(\x7b scheme: \x27" ++ params.scheme ++
        "\x27 \x7d)\n2. Get bundle ID: get_app_bundle_id(\x7b appPath: \x27PATH_FROM_STEP_1\x27 \x7d)\n3. Launch: launch_app_device(\x7b bundleId: \x27BUNDLE_ID_FROM_STEP_2\x27 \x7d)"
    else if isSimulatorPlatform opts.platform then
      let simIdParam := if opts.simulatorId.isSome then "simulatorId" else "simulatorName"
      let simIdValue :=
        match opts.simulatorId with
        | some v => v
        | none =>
          match opts.simulatorName with
          | some v => v
          | none => "undefined"
      "Next Steps:\n1. Get app path: get_sim_app_path(\x7b " ++ simIdParam ++ ": \x27" ++
        simIdValue ++ "\x27, scheme: \x27" ++ params.scheme ++
        "\x27, platform: \x27iOS Simulator\x27 \x7d)\n2. Get bundle ID: get_app_bundle_id(\x7b appPath: \x27PATH_FROM_STEP_1\x27 \x7d)\n3. Launch: launch_app_sim(\x7b " ++
        simIdParam ++ ": \x27" ++ simIdValue ++
        "\x27, bundleId: \x27BUNDLE_ID_FROM_STEP_2\x27 \x7d)\n   Or with logs: launch_app_logs_sim(\x7b " ++
        simIdParam ++ ": \x27" ++ simIdValue ++
        "\x27, bundleId: \x27BUNDLE_ID_FROM_STEP_2\x27 \x7d)"
    else ""
  else ""

/-- The xcodemake success banner (build-utils.ts lines 455-458). -/
def xcodemakeSuccessInfo : String :=
  "xcodemake: Using faster incremental builds with xcodemake. \nFuture builds will use the generated Makefile for improved performance.\n\n"

/-- Observable outcome of one `executeXcodeBuildCommand` run: the response,
the logger calls in order, the number of executor invocations, and the
xcbeautify cache afterwards. -/
structure BuildRunResult where
  response : ToolResponse
  logs : List LogCall
  executorCalls : Nat
  cacheAfter : Option Bool

/-- Embeds the failure tail of `executeXcodeBuildCommand` (build-utils.ts
lines 396-441): the escalation-classified failure log, the mode-dependent
failure response, the guided-mode message prelude, and the xcodemake retry
suggestion when no stdout line was marker-classified. -/
def finishFailure (params : SharedBuildParams) (opts : PlatformBuildOptions)
    (prefer : Bool) (action : String) (env : BuildEnv) (pre : PreparedRun)
    (st2 : RunState) (warningOrErrorLines : List GrepEntry)
    (warnings errors : List String) (result : CmdResult) : BuildRunResult :=
  let isMcpError := result.exitCode == some 64
  let st3 := pushLog st2 (if isMcpError then "error" else "warning")
    (opts.logLabel ++ " " ++ action ++ " failed: " ++
      (result.error.getD "(no stderr; see formatted output)"))
    (some isMcpError)
  let failText :=
    "‚ùå " ++ opts.logLabel ++ " " ++ action ++ " failed for scheme " ++
      params.scheme ++ "."
  let errorResponse : ToolResponse :=
    if env.outputMode = BuildOutputMode.diagnostics then
      ⟨formatDiagnosticsBlocks warnings errors ++ [⟨failText⟩], some true⟩
    else createTextResponse failText true
  let errorResponse :=
    if env.outputMode = BuildOutputMode.guided ∧ st3.messages ≠ [] then
      { errorResponse with content := st3.messages ++ errorResponse.content }
    else errorResponse
  let errorResponse :=
    if env.outputMode = BuildOutputMode.guided ∧ warningOrErrorLines = [] ∧
        pre.enabledFlag = true ∧ pre.availFlag = true ∧ action = "build" ∧
        prefer = false then
      { errorResponse with
          content := errorResponse.content ++ [⟨xcodemakeRetrySuggestion⟩] }
    else errorResponse
  ⟨consolidateContentForClaudeCode errorResponse, st3.logs, st3.execCalls, st3.cache⟩

/-- Embeds the success tail of `executeXcodeBuildCommand` (build-utils.ts
lines 443-523): the success log, the additional-info text (the xcodemake
banner, overwritten by the platform Next-Steps block for a `build` action),
and the mode-dependent success response. -/
def finishSuccess (params : SharedBuildParams) (opts : PlatformBuildOptions)
    (prefer : Bool) (action : String) (env : BuildEnv) (pre : PreparedRun)
    (st2 : RunState) (warnings errors : List String) : BuildRunResult :=
  let st3 := pushLog st2 "info"
    ("‚úÖ " ++ opts.logLabel ++ " " ++ action ++ " succeeded.") none
  let additionalInfo0 :=
    if pre.enabledFlag && pre.availFlag && (action == "build") && !prefer then
      xcodemakeSuccessInfo
    else ""
  let nextSteps := nextStepsInfo params opts action
  let additionalInfo := if nextSteps ≠ "" then nextSteps else additionalInfo0
  let successText :=
    "‚úÖ " ++ opts.logLabel ++ " " ++ action ++ " succeeded for scheme " ++
      params.scheme ++ "."
  let successResponse : ToolResponse :=
    if env.outputMode = BuildOutputMode.diagnostics then
      if warnings = [] ∧ errors = [] then
        ⟨[⟨"‚úÖ " ++ opts.logLabel ++ " " ++ action ++ " succeeded for scheme " ++
            params.scheme ++ " (no warnings/errors)."⟩], some false⟩
      else ⟨formatDiagnosticsBlocks warnings errors ++ [⟨successText⟩], some false⟩
    else ⟨st3.messages ++ [⟨successText⟩], none⟩
  let successResponse :=
    if env.outputMode = BuildOutputMode.guided ∧ additionalInfo ≠ "" then
      { successResponse with content := successResponse.content ++ [⟨additionalInfo⟩] }
    else successResponse
  ⟨consolidateContentForClaudeCode successResponse, st3.logs, st3.execCalls, st3.cache⟩

/-- Embeds `executeXcodeBuildCommand` (build-utils.ts lines 145-543) over
the explicit environment: preparation, command construction, destination
resolution with its early error return, execution via the xcodemake or the
direct path, output classification, the failure or success response with
its mode-dependent shape, and the catch-all conversion of thrown errors. -/
def executeXcodeBuildCommand (params : SharedBuildParams) (opts : PlatformBuildOptions)
    (prefer : Bool) (action : String) (env : BuildEnv) (cache : Option Bool) :
    BuildRunResult :=
  let pre := prepareRun params opts prefer action env cache
  let base := xcodebuildBaseCommand params env
  let _cmd1 := base.2 ++
    ["-scheme", params.scheme, "-configuration", params.configuration, "-skipMacroValidation"]
  match resolveDestination opts with
  | Except.error resp => ⟨resp, pre.st.logs, 0, cache⟩
  | Except.ok destinationString =>
    let _command := _cmd1 ++ ["-destination", destinationString] ++
      (match params.derivedDataPath with
       | some dd => ["-derivedDataPath", dd]
       | none => []) ++
      params.extraArgs ++ [action]
    let ex := runBuildExec prefer action env pre.enabledFlag pre.availFlag pre.st
    let st1 := ex.1
    match ex.2 with
    | Except.error e =>
      let errorMessage := e.message
      let st2 := pushLog st1 "error"
        ("Error during " ++ opts.logLabel ++ " " ++ action ++ ": " ++ errorMessage)
        (some (!(isSpawnErrorCode e.code)))
      ⟨consolidateContentForClaudeCode
          (createTextResponse
            ("Error during " ++ opts.logLabel ++ " " ++ action ++ ": " ++ errorMessage)
            true),
        st2.logs, st2.execCalls, st2.cache⟩
    | Except.ok result =>
      let warningOrErrorLines := grepWarningsAndErrors result.output
      let c := classifyBuildOutput result.output (result.error.getD "")
      let shouldUseXcbeautify := !env.isTestEnv
      let warnings :=
        if shouldUseXcbeautify && (st1.cache == some false) &&
            decide (env.outputMode = BuildOutputMode.diagnostics) then
          getXcbeautifyInstallPrompt :: c.warnings
        else c.warnings
      let errors := c.errors
      let st2 :=
        if env.outputMode = BuildOutputMode.guided then
          let stW := warnings.foldl (fun s w => pushMsg s ("‚ö†Ô∏è Warning: " ++ w)) st1
          errors.foldl
            (fun s e =>
              pushMsg s
                (if startsWithSeq "[stderr] ".data e.data then "‚ùå " ++ e
                 else "‚ùå Error: " ++ e))
            stW
        else st1
      if result.success then
        finishSuccess params opts prefer action env pre st2 warnings errors
      else
        finishFailure params opts prefer action env pre st2 warningOrErrorLines warnings
          errors result

end BuildUtils

namespace BuildUtils

theorem dropWhile_length_le (p : Char → Bool) :
    ∀ l : List Char, (List.dropWhile p l).length ≤ l.length := by
  intro l
  induction l with
  | nil => simp
  | cons a t ih =>
    by_cases hp : p a
    · rw [List.dropWhile_cons_of_pos hp]
      exact Nat.le_succ_of_le ih
    · rw [List.dropWhile_cons_of_neg hp]

theorem head_false_of_dropWhile_eq_self {p : Char → Bool} {a : Char} {t : List Char}
    (h : List.dropWhile p (a :: t) = a :: t) : p a = false := by
  by_cases hp : p a
  · exfalso
    rw [List.dropWhile_cons_of_pos hp] at h
    have hle := dropWhile_length_le p t
    rw [h] at hle
    simp at hle
  · simpa using hp

theorem dropWhile_eq_self_of_head_false {p : Char → Bool} {a : Char} {t : List Char}
    (h : p a = false) : List.dropWhile p (a :: t) = a :: t := by
  rw [List.dropWhile_cons_of_neg (by simp [h])]

theorem dropWhile_of_tail_self {p : Char → Bool} {xs : List Char} {x : Char}
    (h : List.dropWhile p (xs ++ [x]) = xs ++ [x]) : List.dropWhile p xs = xs := by
  cases xs with
  | nil => simp
  | cons a t =>
    have h' : List.dropWhile p (a :: (t ++ [x])) = a :: (t ++ [x]) := by
      simpa using h
    exact dropWhile_eq_self_of_head_false (head_false_of_dropWhile_eq_self h')

theorem dropWhile_rdropWhile (p : Char → Bool) (u : List Char)
    (hu : List.dropWhile p u = u) :
    List.dropWhile p (List.rdropWhile p u) = List.rdropWhile p u := by
  induction u using List.reverseRecOn with
  | nil => simp
  | append_singleton xs x ih =>
    rw [List.rdropWhile_concat]
    by_cases hx : p x
    · rw [if_pos hx]
      exact ih (dropWhile_of_tail_self hu)
    · rw [if_neg hx]
      exact hu

theorem trimChars_idem (l : List Char) : trimChars (trimChars l) = trimChars l := by
  unfold trimChars
  rw [dropWhile_rdropWhile isJsWhitespace (List.dropWhile isJsWhitespace l)
      (List.dropWhile_idempotent _ _)]
  exact List.rdropWhile_idempotent _ _

theorem jsTrim_idem (s : String) : jsTrim (jsTrim s) = jsTrim s := by
  unfold jsTrim
  exact congrArg String.mk (trimChars_idem s.data)

/-- Membership in the dedupe worker output. -/
theorem mem_dedupeGo {x : String} :
    ∀ (l : List String) (seen : List String),
      x ∈ dedupeGo seen l ↔ x ∉ seen ∧ x ≠ "" ∧ ∃ a ∈ l, jsTrim a = x := by
  intro l
  induction l with
  | nil => intro seen; simp [dedupeGo]
  | cons a t ih =>
    intro seen
    by_cases h1 : jsTrim a = ""
    · rw [show dedupeGo seen (a :: t) = dedupeGo seen t by simp [dedupeGo, h1]]
      rw [ih seen]
      constructor
      · rintro ⟨hs, hne, b, hb, hjb⟩
        exact ⟨hs, hne, b, List.mem_cons_of_mem _ hb, hjb⟩
      · rintro ⟨hs, hne, b, hb, hjb⟩
        rcases List.mem_cons.mp hb with hba | hbt
        · subst hba
          rw [h1] at hjb
          exact absurd hjb.symm hne
        · exact ⟨hs, hne, b, hbt, hjb⟩
    · by_cases h2 : jsTrim a ∈ seen
      · rw [show dedupeGo seen (a :: t) = dedupeGo seen t by simp [dedupeGo, h1, h2]]
        rw [ih seen]
        constructor
        · rintro ⟨hs, hne, b, hb, hjb⟩
          exact ⟨hs, hne, b, List.mem_cons_of_mem _ hb, hjb⟩
        · rintro ⟨hs, hne, b, hb, hjb⟩
          rcases List.mem_cons.mp hb with hba | hbt
          · subst hba
            rw [hjb] at h2
            exact absurd h2 hs
          · exact ⟨hs, hne, b, hbt, hjb⟩
      · rw [show dedupeGo seen (a :: t) = jsTrim a :: dedupeGo (jsTrim a :: seen) t by
            simp [dedupeGo, h1, h2]]
        rw [List.mem_cons, ih (jsTrim a :: seen)]
        constructor
        · rintro (hx | ⟨hs, hne, b, hb, hjb⟩)
          · exact ⟨hx ▸ h2, hx ▸ h1, a, List.mem_cons_self _ _, hx.symm⟩
          · exact ⟨fun hc => hs (List.mem_cons_of_mem _ hc), hne, b,
              List.mem_cons_of_mem _ hb, hjb⟩
        · rintro ⟨hs, hne, b, hb, hjb⟩
          by_cases hxa : x = jsTrim a
          · exact Or.inl hxa
          · rcases List.mem_cons.mp hb with hba | hbt
            · exact absurd (hba ▸ hjb).symm hxa
            · exact Or.inr ⟨by
                intro hc
                rcases List.mem_cons.mp hc with hc1 | hc2
                · exact hxa hc1
                · exact hs hc2, hne, b, hbt, hjb⟩

/-- Every emitted line is trim-fixed, non-empty and unseen. -/
theorem dedupeGo_sub {x : String} {l seen : List String} (hx : x ∈ dedupeGo seen l) :
    jsTrim x = x ∧ x ≠ "" ∧ x ∉ seen := by
  rcases (mem_dedupeGo l seen).mp hx with ⟨hs, hne, a, _, hja⟩
  exact ⟨hja ▸ jsTrim_idem a, hne, hs⟩

/-- The dedupe worker never emits a line twice. -/
theorem nodup_dedupeGo : ∀ (l seen : List String), (dedupeGo seen l).Nodup := by
  intro l
  induction l with
  | nil => intro seen; simp [dedupeGo]
  | cons a t ih =>
    intro seen
    by_cases h1 : jsTrim a = ""
    · rw [show dedupeGo seen (a :: t) = dedupeGo seen t by simp [dedupeGo, h1]]
      exact ih seen
    · by_cases h2 : jsTrim a ∈ seen
      · rw [show dedupeGo seen (a :: t) = dedupeGo seen t by simp [dedupeGo, h1, h2]]
        exact ih seen
      · rw [show dedupeGo seen (a :: t) = jsTrim a :: dedupeGo (jsTrim a :: seen) t by
            simp [dedupeGo, h1, h2]]
        refine List.nodup_cons.mpr ⟨fun hc => ?_, ih _⟩
        exact (dedupeGo_sub hc).2.2 (List.mem_cons_self _ _)

/-- The seen-set of the dedupe worker after processing a list. -/
def seenAfter (seen : List String) : List String → List String
  | [] => seen
  | line :: rest =>
    let trimmed := jsTrim line
    if trimmed = "" then seenAfter seen rest
    else if trimmed ∈ seen then seenAfter seen rest
    else seenAfter (trimmed :: seen) rest

theorem mem_seenAfter {x : String} :
    ∀ (l seen : List String), x ∈ seenAfter seen l ↔ x ∈ dedupeGo seen l ∨ x ∈ seen := by
  intro l
  induction l with
  | nil => intro seen; simp [seenAfter, dedupeGo]
  | cons a t ih =>
    intro seen
    by_cases h1 : jsTrim a = ""
    · rw [show seenAfter seen (a :: t) = seenAfter seen t by simp [seenAfter, h1],
        show dedupeGo seen (a :: t) = dedupeGo seen t by simp [dedupeGo, h1]]
      exact ih seen
    · by_cases h2 : jsTrim a ∈ seen
      · rw [show seenAfter seen (a :: t) = seenAfter seen t by simp [seenAfter, h1, h2],
          show dedupeGo seen (a :: t) = dedupeGo seen t by simp [dedupeGo, h1, h2]]
        exact ih seen
      · rw [show seenAfter seen (a :: t) = seenAfter (jsTrim a :: seen) t by
            simp [seenAfter, h1, h2],
          show dedupeGo seen (a :: t) = jsTrim a :: dedupeGo (jsTrim a :: seen) t by
            simp [dedupeGo, h1, h2]]
        rw [ih (jsTrim a :: seen)]
        simp [List.mem_cons]
        tauto

theorem dedupeGo_append :
    ∀ (A B seen : List String),
      dedupeGo seen (A ++ B) = dedupeGo seen A ++ dedupeGo (seenAfter seen A) B := by
  intro A
  induction A with
  | nil => intro B seen; simp [dedupeGo, seenAfter]
  | cons a t ih =>
    intro B seen
    by_cases h1 : jsTrim a = ""
    · simpa [dedupeGo, seenAfter, h1] using ih B seen
    · by_cases h2 : jsTrim a ∈ seen
      · simpa [dedupeGo, seenAfter, h1, h2] using ih B seen
      · simpa [dedupeGo, seenAfter, h1, h2] using ih B (jsTrim a :: seen)

theorem dedupeGo_congr :
    ∀ (l s₁ s₂ : List String), (∀ x, x ∈ s₁ ↔ x ∈ s₂) → dedupeGo s₁ l = dedupeGo s₂ l := by
  intro l
  induction l with
  | nil => intro s₁ s₂ _; simp [dedupeGo]
  | cons a t ih =>
    intro s₁ s₂ hmem
    by_cases h1 : jsTrim a = ""
    · simpa [dedupeGo, h1] using ih s₁ s₂ hmem
    · by_cases h2 : jsTrim a ∈ s₁
      · have h2' : jsTrim a ∈ s₂ := (hmem _).mp h2
        simpa [dedupeGo, h1, h2, h2'] using ih s₁ s₂ hmem
      · have h2' : jsTrim a ∉ s₂ := fun hc => h2 ((hmem _).mpr hc)
        rw [show dedupeGo s₁ (a :: t) = jsTrim a :: dedupeGo (jsTrim a :: s₁) t by
            simp [dedupeGo, h1, h2],
          show dedupeGo s₂ (a :: t) = jsTrim a :: dedupeGo (jsTrim a :: s₂) t by
            simp [dedupeGo, h1, h2']]
        congr 1
        exact ih _ _ (by intro x; simp only [List.mem_cons]; rw [hmem x])

theorem dedupeGo_fixed :
    ∀ (l seen : List String),
      (∀ x ∈ l, jsTrim x = x ∧ x ≠ "" ∧ x ∉ seen) → l.Nodup → dedupeGo seen l = l := by
  intro l
  induction l with
  | nil => intro seen _ _; simp [dedupeGo]
  | cons a t ih =>
    intro seen hall hnd
    obtain ⟨hja, hne, hns⟩ := hall a (List.mem_cons_self _ _)
    rw [show dedupeGo seen (a :: t) = jsTrim a :: dedupeGo (jsTrim a :: seen) t by
        simp [dedupeGo, hja, hne, hns]]
    rw [hja]
    congr 1
    apply ih
    · intro x hx
      obtain ⟨hjx, hnex, hnsx⟩ := hall x (List.mem_cons_of_mem _ hx)
      refine ⟨hjx, hnex, ?_⟩
      intro hc
      rcases List.mem_cons.mp hc with hc1 | hc2
      · exact (List.nodup_cons.mp hnd).1 (hc1 ▸ hx)
      · exact hnsx hc2
    · exact (List.nodup_cons.mp hnd).2

theorem dedupeGo_collapse :
    ∀ (B s₀ s : List String), (∀ x ∈ s₀, x ∈ s) →
      dedupeGo s (dedupeGo s₀ B) = dedupeGo s B := by
  intro B
  induction B with
  | nil => intro s₀ s _; simp [dedupeGo]
  | cons a t ih =>
    intro s₀ s hsub
    by_cases h1 : jsTrim a = ""
    · simpa [dedupeGo, h1] using ih s₀ s hsub
    · by_cases h2 : jsTrim a ∈ s₀
      · have h2' : jsTrim a ∈ s := hsub _ h2
        rw [show dedupeGo s₀ (a :: t) = dedupeGo s₀ t by simp [dedupeGo, h1, h2],
          show dedupeGo s (a :: t) = dedupeGo s t by simp [dedupeGo, h1, h2']]
        exact ih s₀ s hsub
      · rw [show dedupeGo s₀ (a :: t) = jsTrim a :: dedupeGo (jsTrim a :: s₀) t by
            simp [dedupeGo, h1, h2]]
        by_cases h3 : jsTrim a ∈ s
        · rw [show dedupeGo s (jsTrim a :: dedupeGo (jsTrim a :: s₀) t) =
              dedupeGo s (dedupeGo (jsTrim a :: s₀) t) by
              simp [dedupeGo, jsTrim_idem, h1, h3],
            show dedupeGo s (a :: t) = dedupeGo s t by simp [dedupeGo, h1, h3]]
          apply ih
          intro x hx
          rcases List.mem_cons.mp hx with hx1 | hx2
          · exact hx1 ▸ h3
          · exact hsub _ hx2
        · rw [show dedupeGo s (jsTrim a :: dedupeGo (jsTrim a :: s₀) t) =
              jsTrim (jsTrim a) :: dedupeGo (jsTrim (jsTrim a) :: s)
                (dedupeGo (jsTrim a :: s₀) t) by
              simp [dedupeGo, jsTrim_idem, h1, h3],
            show dedupeGo s (a :: t) = jsTrim a :: dedupeGo (jsTrim a :: s) t by
              simp [dedupeGo, h1, h3]]
          rw [jsTrim_idem]
          congr 1
          apply ih
          intro x hx
          rcases List.mem_cons.mp hx with hx1 | hx2
          · exact hx1 ▸ List.mem_cons_self _ _
          · exact List.mem_cons_of_mem _ (hsub _ hx2)

/-- Deduplicating the concatenation of two already-deduplicated lists is the
same as deduplicating the concatenation of the raw lists. -/
theorem dedupe_append_dedupe (A B : List String) :
    dedupeLines (dedupeLines A ++ dedupeLines B) = dedupeLines (A ++ B) := by
  unfold dedupeLines
  rw [dedupeGo_append, dedupeGo_append]
  have hfix : dedupeGo [] (dedupeGo [] A) = dedupeGo [] A :=
    dedupeGo_fixed _ _ (fun x hx => by
      obtain ⟨h1, h2, _⟩ := dedupeGo_sub hx
      exact ⟨h1, h2, List.not_mem_nil x⟩) (nodup_dedupeGo _ _)
  rw [hfix]
  congr 1
  rw [dedupeGo_collapse _ [] _ (fun x hx => absurd hx (List.not_mem_nil x))]
  apply dedupeGo_congr
  intro x
  rw [mem_seenAfter, mem_seenAfter, hfix]

theorem startsWithSeq_self : ∀ l : List Char, startsWithSeq l l = true := by
  intro l
  induction l with
  | nil => rfl
  | cons c cs ih => simp [startsWithSeq, ih]

theorem containsSeq_of_starts {pat l : List Char} (h : startsWithSeq pat l = true) :
    containsSeq pat l = true := by
  cases l with
  | nil => simpa [containsSeq] using h
  | cons c cs => simp [containsSeq, h]

theorem containsSeq_append_left (pat : List Char) :
    ∀ (xs ys : List Char), containsSeq pat ys = true → containsSeq pat (xs ++ ys) = true := by
  intro xs
  induction xs with
  | nil => intro ys h; simpa using h
  | cons x xt ih =>
    intro ys h
    have hih := ih ys h
    simp only [List.cons_append, containsSeq, List.append_eq] at *
    rw [hih]
    simp

/-- **C1.** Classification output invariants: every returned warning and
error line is trimmed and non-empty, each list is duplicate-free with
first-seen order preserved, and the error list is the single-pass
deduplication of the stdout-classified error lines followed by the tagged
non-empty trimmed stderr lines. -/
theorem classify_dedupes_and_orders (stdout stderr : String) :
    (∀ x ∈ (classifyBuildOutput stdout stderr).warnings, jsTrim x = x ∧ x ≠ "") ∧
    (classifyBuildOutput stdout stderr).warnings.Nodup ∧
    (∀ x ∈ (classifyBuildOutput stdout stderr).errors, jsTrim x = x ∧ x ≠ "") ∧
    (classifyBuildOutput stdout stderr).errors.Nodup ∧
    (classifyBuildOutput stdout stderr).warnings = dedupeLines (stdoutWarningLines stdout) ∧
    (classifyBuildOutput stdout stderr).errors =
      dedupeLines (stdoutErrorLines stdout ++ stderrTaggedLines stderr) := by
  refine ⟨?_, ?_, ?_, ?_, rfl, ?_⟩
  · intro x hx
    obtain ⟨h1, h2, _⟩ := dedupeGo_sub hx
    exact ⟨h1, h2⟩
  · exact nodup_dedupeGo _ _
  · intro x hx
    obtain ⟨h1, h2, _⟩ := dedupeGo_sub hx
    exact ⟨h1, h2⟩
  · exact nodup_dedupeGo _ _
  · exact dedupe_append_dedupe _ _

/-- **C2.** A stdout line containing both the case-insensitive `warning:`
marker and the case-insensitive `error:` marker is emitted by the classifier
as a warning entry, and never as an error entry: the warning test runs
first and the per-line classifications are mutually exclusive. -/
theorem both_markers_classified_as_warning (text line : String)
    (hline : line ∈ splitLines text)
    (hw : containsCI "warning:" line = true)
    (he : containsCI "error:" line = true) :
    (⟨EntryType.warning, line⟩ : GrepEntry) ∈ grepWarningsAndErrors text ∧
    (⟨EntryType.error, line⟩ : GrepEntry) ∉ grepWarningsAndErrors text := by
  constructor
  · unfold grepWarningsAndErrors
    rw [List.mem_filterMap]
    exact ⟨line, hline, by simp [classifyLine, hw]⟩
  · intro hmem
    unfold grepWarningsAndErrors at hmem
    rw [List.mem_filterMap] at hmem
    obtain ⟨a, _, ha⟩ := hmem
    unfold classifyLine at ha
    by_cases h1 : containsCI "warning:" a = true
    · rw [if_pos h1] at ha
      exact absurd (Option.some.inj ha) (by simp)
    · rw [if_neg h1] at ha
      by_cases h2 : containsCI "error:" a = true
      · rw [if_pos h2] at ha
        have hal : a = line := congrArg GrepEntry.content (Option.some.inj ha)
        exact h1 (hal ▸ hw)
      · rw [if_neg h2] at ha
        exact Option.noConfusion ha

theorem both_markers_classified_as_warning_witness :
    ("warning: is also an error: here" ∈ splitLines "ok\nwarning: is also an error: here" ∧
      containsCI "warning:" "warning: is also an error: here" = true ∧
      containsCI "error:" "warning: is also an error: here" = true) ∧
    ((⟨EntryType.warning, "warning: is also an error: here"⟩ : GrepEntry) ∈
        grepWarningsAndErrors "ok\nwarning: is also an error: here" ∧
      (⟨EntryType.error, "warning: is also an error: here"⟩ : GrepEntry) ∉
        grepWarningsAndErrors "ok\nwarning: is also an error: here") :=
  ⟨⟨by decide, by decide, by decide⟩,
    both_markers_classified_as_warning "ok\nwarning: is also an error: here"
      "warning: is also an error: here" (by decide) (by decide) (by decide)⟩

/-- **C8.** The availability probe is memoized: with an empty cache and a
succeeding executor the first call invokes the executor exactly once and
caches the flag; a second call returns the memoized flag with zero executor
invocations; and a filled cache is always returned unchanged, whatever the
executor would do. -/
theorem xcbeautify_probe_memoized (r : CmdResult) (e2 : ExecOutcome)
    (hr : r.success = true) :
    (isXcbeautifyAvailable none (Except.ok r)).calls = 1 ∧
    (isXcbeautifyAvailable none (Except.ok r)).available = true ∧
    (isXcbeautifyAvailable (isXcbeautifyAvailable none (Except.ok r)).cacheAfter e2).calls
      = 0 ∧
    (isXcbeautifyAvailable (isXcbeautifyAvailable none (Except.ok r)).cacheAfter
        e2).available = true ∧
    (isXcbeautifyAvailable (isXcbeautifyAvailable none (Except.ok r)).cacheAfter
        e2).cacheAfter = (isXcbeautifyAvailable none (Except.ok r)).cacheAfter ∧
    (∀ (b : Bool) (e3 : ExecOutcome),
      isXcbeautifyAvailable (some b) e3 = ⟨b, some b, 0⟩) := by
  refine ⟨rfl, by simp [isXcbeautifyAvailable, hr], by simp [isXcbeautifyAvailable],
    by simp [isXcbeautifyAvailable, hr], by simp [isXcbeautifyAvailable], ?_⟩
  intro b e3
  rfl

theorem xcbeautify_probe_memoized_witness :
    (({ success := true, output := "", error := none, exitCode := some 0 } :
        CmdResult).success = true) ∧
    ((isXcbeautifyAvailable none
        (Except.ok ⟨true, "", none, some 0⟩)).calls = 1 ∧
      (isXcbeautifyAvailable none (Except.ok ⟨true, "", none, some 0⟩)).available = true ∧
      (isXcbeautifyAvailable
          (isXcbeautifyAvailable none (Except.ok ⟨true, "", none, some 0⟩)).cacheAfter
          (Except.error ⟨"never called", none⟩)).calls = 0 ∧
      (isXcbeautifyAvailable
          (isXcbeautifyAvailable none (Except.ok ⟨true, "", none, some 0⟩)).cacheAfter
          (Except.error ⟨"never called", none⟩)).available = true ∧
      (isXcbeautifyAvailable
          (isXcbeautifyAvailable none (Except.ok ⟨true, "", none, some 0⟩)).cacheAfter
          (Except.error ⟨"never called", none⟩)).cacheAfter =
        (isXcbeautifyAvailable none (Except.ok ⟨true, "", none, some 0⟩)).cacheAfter ∧
      (∀ (b : Bool) (e3 : ExecOutcome),
        isXcbeautifyAvailable (some b) e3 = ⟨b, some b, 0⟩)) :=
  ⟨rfl, xcbeautify_probe_memoized ⟨true, "", none, some 0⟩
    (Except.error ⟨"never called", none⟩) rfl⟩

/-- **C9.** A thrown first probe poisons the cache: the probe returns
`false`, caches `false`, and every later call — even with a succeeding
executor — returns `false` without invoking its executor, until the
explicit cache reset restores a fresh probe. -/
theorem xcbeautify_probe_caches_throw (err : JsError) (r2 : CmdResult)
    (hr2 : r2.success = true) :
    (isXcbeautifyAvailable none (Except.error err)).available = false ∧
    (isXcbeautifyAvailable none (Except.error err)).cacheAfter = some false ∧
    (isXcbeautifyAvailable none (Except.error err)).calls = 1 ∧
    (isXcbeautifyAvailable (isXcbeautifyAvailable none (Except.error err)).cacheAfter
        (Except.ok r2)).available = false ∧
    (isXcbeautifyAvailable (isXcbeautifyAvailable none (Except.error err)).cacheAfter
        (Except.ok r2)).calls = 0 ∧
    (isXcbeautifyAvailable (isXcbeautifyAvailable none (Except.error err)).cacheAfter
        (Except.ok r2)).cacheAfter = some false ∧
    (isXcbeautifyAvailable resetXcbeautifyCache (Except.ok r2)).available = true ∧
    (isXcbeautifyAvailable resetXcbeautifyCache (Except.ok r2)).calls = 1 := by
  refine ⟨rfl, rfl, rfl, rfl, rfl, rfl, ?_, rfl⟩
  simp [isXcbeautifyAvailable, resetXcbeautifyCache, hr2]

theorem xcbeautify_probe_caches_throw_witness :
    (({ success := true, output := "", error := none, exitCode := some 0 } :
        CmdResult).success = true) ∧
    ((isXcbeautifyAvailable none (Except.error ⟨"spawn failed", some "ENOENT"⟩)).available
        = false ∧
      (isXcbeautifyAvailable none
          (Except.error ⟨"spawn failed", some "ENOENT"⟩)).cacheAfter = some false ∧
      (isXcbeautifyAvailable none (Except.error ⟨"spawn failed", some "ENOENT"⟩)).calls
        = 1 ∧
      (isXcbeautifyAvailable
          (isXcbeautifyAvailable none
            (Except.error ⟨"spawn failed", some "ENOENT"⟩)).cacheAfter
          (Except.ok ⟨true, "", none, some 0⟩)).available = false ∧
      (isXcbeautifyAvailable
          (isXcbeautifyAvailable none
            (Except.error ⟨"spawn failed", some "ENOENT"⟩)).cacheAfter
          (Except.ok ⟨true, "", none, some 0⟩)).calls = 0 ∧
      (isXcbeautifyAvailable
          (isXcbeautifyAvailable none
            (Except.error ⟨"spawn failed", some "ENOENT"⟩)).cacheAfter
          (Except.ok ⟨true, "", none, some 0⟩)).cacheAfter = some false ∧
      (isXcbeautifyAvailable resetXcbeautifyCache
          (Except.ok ⟨true, "", none, some 0⟩)).available = true ∧
      (isXcbeautifyAvailable resetXcbeautifyCache
          (Except.ok ⟨true, "", none, some 0⟩)).calls = 1) :=
  ⟨rfl, xcbeautify_probe_caches_throw ⟨"spawn failed", some "ENOENT"⟩
    ⟨true, "", none, some 0⟩ rfl⟩

/-- **C5.** A simulator-platform request with neither `simulatorId` nor
`simulatorName` returns the early parameter-error response — whose text
contains "simulatorId or simulatorName must be provided" — with the error
flag set and zero executor invocations. -/
theorem simulator_selector_required (params : SharedBuildParams)
    (opts : PlatformBuildOptions) (prefer : Bool) (action : String) (env : BuildEnv)
    (cache : Option Bool)
    (hsim : isSimulatorPlatform opts.platform = true)
    (hid : opts.simulatorId = none)
    (hname : opts.simulatorName = none) :
    (executeXcodeBuildCommand params opts prefer action env cache).executorCalls = 0 ∧
    (executeXcodeBuildCommand params opts prefer action env cache).response =
      createTextResponse
        ("For " ++ platformName opts.platform ++
          " platform, either simulatorId or simulatorName must be provided") true ∧
    (executeXcodeBuildCommand params opts prefer action env cache).response.isError =
      some true ∧
    ∃ b ∈ (executeXcodeBuildCommand params opts prefer action env cache).response.content,
      containsSeq "simulatorId or simulatorName must be provided".data b.text.data = true := by
  have hres : resolveDestination opts =
      Except.error
        (createTextResponse
          ("For " ++ platformName opts.platform ++
            " platform, either simulatorId or simulatorName must be provided") true) := by
    simp only [resolveDestination, hsim, hid, hname, if_true]
  have hrun : executeXcodeBuildCommand params opts prefer action env cache =
      ⟨createTextResponse
          ("For " ++ platformName opts.platform ++
            " platform, either simulatorId or simulatorName must be provided") true,
        (prepareRun params opts prefer action env cache).st.logs, 0, cache⟩ := by
    simp only [executeXcodeBuildCommand, hres]
  rw [hrun]
  refine ⟨rfl, rfl, rfl, ?_⟩
  refine ⟨⟨"For " ++ platformName opts.platform ++
    " platform, either simulatorId or simulatorName must be provided"⟩,
    by simp [createTextResponse], ?_⟩
  have hplat : opts.platform = XcodePlatform.iOSSimulator ∨
      opts.platform = XcodePlatform.watchOSSimulator ∨
      opts.platform = XcodePlatform.tvOSSimulator ∨
      opts.platform = XcodePlatform.visionOSSimulator := by
    simpa [isSimulatorPlatform] using hsim
  rcases hplat with h | h | h | h <;> rw [h] <;> decide

theorem simulator_selector_required_witness :
    (isSimulatorPlatform
        (⟨XcodePlatform.iOSSimulator, none, none, none, none, none, "iOS Sim Build",
            none⟩ : PlatformBuildOptions).platform = true ∧
      (⟨XcodePlatform.iOSSimulator, none, none, none, none, none, "iOS Sim Build",
          none⟩ : PlatformBuildOptions).simulatorId = none ∧
      (⟨XcodePlatform.iOSSimulator, none, none, none, none, none, "iOS Sim Build",
          none⟩ : PlatformBuildOptions).simulatorName = none) ∧
    ((executeXcodeBuildCommand ⟨none, some "/p/x.xcodeproj", "S", "Debug", none, []⟩
        ⟨XcodePlatform.iOSSimulator, none, none, none, none, none, "iOS Sim Build", none⟩
        false "build"
        ⟨BuildOutputMode.guided, true, false, false, false, false,
          Except.error ⟨"unused", none⟩, Except.error ⟨"unused", none⟩,
          fun _ => Except.ok ⟨true, "", none, some 0⟩, fun s => s⟩
        none).executorCalls = 0 ∧
      (executeXcodeBuildCommand ⟨none, some "/p/x.xcodeproj", "S", "Debug", none, []⟩
        ⟨XcodePlatform.iOSSimulator, none, none, none, none, none, "iOS Sim Build", none⟩
        false "build"
        ⟨BuildOutputMode.guided, true, false, false, false, false,
          Except.error ⟨"unused", none⟩, Except.error ⟨"unused", none⟩,
          fun _ => Except.ok ⟨true, "", none, some 0⟩, fun s => s⟩
        none).response =
        createTextResponse
          ("For " ++ platformName XcodePlatform.iOSSimulator ++
            " platform, either simulatorId or simulatorName must be provided") true ∧
      (executeXcodeBuildCommand ⟨none, some "/p/x.xcodeproj", "S", "Debug", none, []⟩
        ⟨XcodePlatform.iOSSimulator, none, none, none, none, none, "iOS Sim Build", none⟩
        false "build"
        ⟨BuildOutputMode.guided, true, false, false, false, false,
          Except.error ⟨"unused", none⟩, Except.error ⟨"unused", none⟩,
          fun _ => Except.ok ⟨true, "", none, some 0⟩, fun s => s⟩
        none).response.isError = some true ∧
      ∃ b ∈ (executeXcodeBuildCommand ⟨none, some "/p/x.xcodeproj", "S", "Debug", none, []⟩
        ⟨XcodePlatform.iOSSimulator, none, none, none, none, none, "iOS Sim Build", none⟩
        false "build"
        ⟨BuildOutputMode.guided, true, false, false, false, false,
          Except.error ⟨"unused", none⟩, Except.error ⟨"unused", none⟩,
          fun _ => Except.ok ⟨true, "", none, some 0⟩, fun s => s⟩
        none).response.content,
        containsSeq "simulatorId or simulatorName must be provided".data b.text.data =
          true) :=
  ⟨⟨rfl, rfl, rfl⟩,
    simulator_selector_required ⟨none, some "/p/x.xcodeproj", "S", "Debug", none, []⟩
      ⟨XcodePlatform.iOSSimulator, none, none, none, none, none, "iOS Sim Build", none⟩
      false "build"
      ⟨BuildOutputMode.guided, true, false, false, false, false,
        Except.error ⟨"unused", none⟩, Except.error ⟨"unused", none⟩,
        fun _ => Except.ok ⟨true, "", none, some 0⟩, fun s => s⟩
      none rfl rfl rfl⟩

/-- **C10.** Supplying both `workspacePath` and `projectPath` is not
rejected: the run is identical to the run with `projectPath` removed — the
project path is ignored entirely — and the assembled command selects
`-workspace` with the project directory derived from the workspace path. -/
theorem workspace_wins_over_project (params : SharedBuildParams)
    (opts : PlatformBuildOptions) (prefer : Bool) (action : String) (env : BuildEnv)
    (cache : Option Bool) (w p : String)
    (hw : params.workspacePath = some w) (hp : params.projectPath = some p) :
    executeXcodeBuildCommand params opts prefer action env cache =
      executeXcodeBuildCommand { params with projectPath := none } opts prefer action env
        cache ∧
    xcodebuildBaseCommand params env = (env.dirname w, ["xcodebuild", "-workspace", w]) := by
  obtain ⟨f1, f2, f3, f4, f5, f6⟩ := params
  simp only at hw hp
  subst hw
  exact ⟨rfl, rfl⟩

theorem workspace_wins_over_project_witness :
    ((⟨some "/ws/App.xcworkspace", some "/pr/App.xcodeproj", "S", "Debug", none, []⟩ :
        SharedBuildParams).workspacePath = some "/ws/App.xcworkspace" ∧
      (⟨some "/ws/App.xcworkspace", some "/pr/App.xcodeproj", "S", "Debug", none, []⟩ :
        SharedBuildParams).projectPath = some "/pr/App.xcodeproj") ∧
    (executeXcodeBuildCommand
        ⟨some "/ws/App.xcworkspace", some "/pr/App.xcodeproj", "S", "Debug", none, []⟩
        ⟨XcodePlatform.macOS, none, none, none, none, none, "Test Build", none⟩
        false "build"
        ⟨BuildOutputMode.guided, true, false, false, false, false,
          Except.error ⟨"unused", none⟩, Except.error ⟨"unused", none⟩,
          fun _ => Except.ok ⟨true, "ok", none, some 0⟩, fun s => s⟩
        none =
      executeXcodeBuildCommand
        ⟨some "/ws/App.xcworkspace", none, "S", "Debug", none, []⟩
        ⟨XcodePlatform.macOS, none, none, none, none, none, "Test Build", none⟩
        false "build"
        ⟨BuildOutputMode.guided, true, false, false, false, false,
          Except.error ⟨"unused", none⟩, Except.error ⟨"unused", none⟩,
          fun _ => Except.ok ⟨true, "ok", none, some 0⟩, fun s => s⟩
        none ∧
      xcodebuildBaseCommand
        ⟨some "/ws/App.xcworkspace", some "/pr/App.xcodeproj", "S", "Debug", none, []⟩
        ⟨BuildOutputMode.guided, true, false, false, false, false,
          Except.error ⟨"unused", none⟩, Except.error ⟨"unused", none⟩,
          fun _ => Except.ok ⟨true, "ok", none, some 0⟩, fun s => s⟩ =
        ((⟨BuildOutputMode.guided, true, false, false, false, false,
          Except.error ⟨"unused", none⟩, Except.error ⟨"unused", none⟩,
          fun _ => Except.ok ⟨true, "ok", none, some 0⟩, fun s => s⟩ :
            BuildEnv).dirname "/ws/App.xcworkspace",
          ["xcodebuild", "-workspace", "/ws/App.xcworkspace"])) :=
  ⟨⟨rfl, rfl⟩,
    workspace_wins_over_project
      ⟨some "/ws/App.xcworkspace", some "/pr/App.xcodeproj", "S", "Debug", none, []⟩
      ⟨XcodePlatform.macOS, none, none, none, none, none, "Test Build", none⟩
      false "build"
      ⟨BuildOutputMode.guided, true, false, false, false, false,
        Except.error ⟨"unused", none⟩, Except.error ⟨"unused", none⟩,
        fun _ => Except.ok ⟨true, "ok", none, some 0⟩, fun s => s⟩
      none "/ws/App.xcworkspace" "/pr/App.xcodeproj" rfl rfl⟩

theorem finishFailure_isError (params : SharedBuildParams) (opts : PlatformBuildOptions)
    (prefer : Bool) (action : String) (env : BuildEnv) (pre : PreparedRun)
    (st2 : RunState) (wl : List GrepEntry) (w e : List String) (result : CmdResult) :
    (finishFailure params opts prefer action env pre st2 wl w e result).response.isError =
      some true := by
  simp only [finishFailure, consolidateContentForClaudeCode, createTextResponse]
  split_ifs <;> rfl

theorem finishFailure_lastLog (params : SharedBuildParams) (opts : PlatformBuildOptions)
    (prefer : Bool) (action : String) (env : BuildEnv) (pre : PreparedRun)
    (st2 : RunState) (wl : List GrepEntry) (w e : List String) (result : CmdResult) :
    (finishFailure params opts prefer action env pre st2 wl w e result).logs.getLast? =
      some ⟨(if result.exitCode == some 64 then "error" else "warning"),
        opts.logLabel ++ " " ++ action ++ " failed: " ++
          (result.error.getD "(no stderr; see formatted output)"),
        some (result.exitCode == some 64)⟩ := by
  simp only [finishFailure, pushLog, List.getLast?_concat]

/-- **C3.** On a failed toolchain invocation the failure log call carries
the escalation flag exactly when the exit code is 64 — its level is
`error` then and `warning` otherwise — and a failure response (error flag
set) is returned in all cases. -/
theorem exit_code64_escalates (params : SharedBuildParams)
    (opts : PlatformBuildOptions) (prefer : Bool) (action : String) (env : BuildEnv)
    (cache : Option Bool) (d : String) (r : CmdResult)
    (hdest : resolveDestination opts = Except.ok d)
    (hexec : (runBuildExec prefer action env
        (prepareRun params opts prefer action env cache).enabledFlag
        (prepareRun params opts prefer action env cache).availFlag
        (prepareRun params opts prefer action env cache).st).2 = Except.ok r)
    (hfail : r.success = false) :
    (executeXcodeBuildCommand params opts prefer action env cache).response.isError =
      some true ∧
    (executeXcodeBuildCommand params opts prefer action env cache).logs.getLast? =
      some ⟨(if r.exitCode == some 64 then "error" else "warning"),
        opts.logLabel ++ " " ++ action ++ " failed: " ++
          (r.error.getD "(no stderr; see formatted output)"),
        some (r.exitCode == some 64)⟩ ∧
    ((r.exitCode == some 64) = true ↔ r.exitCode = some 64) := by
  simp only [executeXcodeBuildCommand, hdest, hexec, hfail, Bool.false_eq_true, if_false]
  exact ⟨finishFailure_isError _ _ _ _ _ _ _ _ _ _ _,
    finishFailure_lastLog _ _ _ _ _ _ _ _ _ _ _, beq_iff_eq⟩


theorem exit_code64_escalates_witness :
    (resolveDestination
        ⟨XcodePlatform.macOS, none, none, none, none, none, "Test Build", none⟩ =
        Except.ok "platform=macOS" ∧
      (runBuildExec false "build"
        ⟨BuildOutputMode.guided, true, false, false, false, false,
          Except.error ⟨"unused", none⟩, Except.error ⟨"unused", none⟩,
          fun _ => Except.ok ⟨false, "", some "xcodebuild: error: invalid option", some 64⟩,
          fun s => s⟩
        (prepareRun ⟨none, some "/p/x.xcodeproj", "TestScheme", "Debug", none, []⟩
          ⟨XcodePlatform.macOS, none, none, none, none, none, "Test Build", none⟩
          false "build"
          ⟨BuildOutputMode.guided, true, false, false, false, false,
            Except.error ⟨"unused", none⟩, Except.error ⟨"unused", none⟩,
            fun _ =>
              Except.ok ⟨false, "", some "xcodebuild: error: invalid option", some 64⟩,
            fun s => s⟩
          none).enabledFlag
        (prepareRun ⟨none, some "/p/x.xcodeproj", "TestScheme", "Debug", none, []⟩
          ⟨XcodePlatform.macOS, none, none, none, none, none, "Test Build", none⟩
          false "build"
          ⟨BuildOutputMode.guided, true, false, false, false, false,
            Except.error ⟨"unused", none⟩, Except.error ⟨"unused", none⟩,
            fun _ =>
              Except.ok ⟨false, "", some "xcodebuild: error: invalid option", some 64⟩,
            fun s => s⟩
          none).availFlag
        (prepareRun ⟨none, some "/p/x.xcodeproj", "TestScheme", "Debug", none, []⟩
          ⟨XcodePlatform.macOS, none, none, none, none, none, "Test Build", none⟩
          false "build"
          ⟨BuildOutputMode.guided, true, false, false, false, false,
            Except.error ⟨"unused", none⟩, Except.error ⟨"unused", none⟩,
            fun _ =>
              Except.ok ⟨false, "", some "xcodebuild: error: invalid option", some 64⟩,
            fun s => s⟩
          none).st).2 =
        Except.ok ⟨false, "", some "xcodebuild: error: invalid option", some 64⟩ ∧
      (⟨false, "", some "xcodebuild: error: invalid option", some 64⟩ :
        CmdResult).success = false) ∧
    ((executeXcodeBuildCommand ⟨none, some "/p/x.xcodeproj", "TestScheme", "Debug", none, []⟩
        ⟨XcodePlatform.macOS, none, none, none, none, none, "Test Build", none⟩
        false "build"
        ⟨BuildOutputMode.guided, true, false, false, false, false,
          Except.error ⟨"unused", none⟩, Except.error ⟨"unused", none⟩,
          fun _ => Except.ok ⟨false, "", some "xcodebuild: error: invalid option", some 64⟩,
          fun s => s⟩
        none).response.isError = some true ∧
      (executeXcodeBuildCommand ⟨none, some "/p/x.xcodeproj", "TestScheme", "Debug", none, []⟩
        ⟨XcodePlatform.macOS, none, none, none, none, none, "Test Build", none⟩
        false "build"
        ⟨BuildOutputMode.guided, true, false, false, false, false,
          Except.error ⟨"unused", none⟩, Except.error ⟨"unused", none⟩,
          fun _ => Except.ok ⟨false, "", some "xcodebuild: error: invalid option", some 64⟩,
          fun s => s⟩
        none).logs.getLast? =
        some ⟨(if (⟨false, "", some "xcodebuild: error: invalid option", some 64⟩ :
              CmdResult).exitCode == some 64 then "error" else "warning"),
          "Test Build" ++ " " ++ "build" ++ " failed: " ++
            ((⟨false, "", some "xcodebuild: error: invalid option", some 64⟩ :
              CmdResult).error.getD "(no stderr; see formatted output)"),
          some ((⟨false, "", some "xcodebuild: error: invalid option", some 64⟩ :
            CmdResult).exitCode == some 64)⟩ ∧
      (((⟨false, "", some "xcodebuild: error: invalid option", some 64⟩ :
          CmdResult).exitCode == some 64) = true ↔
        (⟨false, "", some "xcodebuild: error: invalid option", some 64⟩ :
          CmdResult).exitCode = some 64)) :=
  ⟨⟨rfl, rfl, rfl⟩,
    exit_code64_escalates ⟨none, some "/p/x.xcodeproj", "TestScheme", "Debug", none, []⟩
      ⟨XcodePlatform.macOS, none, none, none, none, none, "Test Build", none⟩
      false "build"
      ⟨BuildOutputMode.guided, true, false, false, false, false,
        Except.error ⟨"unused", none⟩, Except.error ⟨"unused", none⟩,
        fun _ => Except.ok ⟨false, "", some "xcodebuild: error: invalid option", some 64⟩,
        fun s => s⟩
      none "platform=macOS" ⟨false, "", some "xcodebuild: error: invalid option", some 64⟩
      rfl rfl rfl⟩

/-- **C4.** A throwing executor never propagates: the orchestrator catches
the exception and returns a structured failure response with the error flag
and a human-readable text, and the accompanying log call suppresses
escalation exactly for the spawn-error codes ENOENT, EACCES and EPERM. -/
theorem thrown_errors_are_caught (params : SharedBuildParams)
    (opts : PlatformBuildOptions) (prefer : Bool) (action : String) (env : BuildEnv)
    (cache : Option Bool) (d : String) (e : JsError)
    (hdest : resolveDestination opts = Except.ok d)
    (hexec : (runBuildExec prefer action env
        (prepareRun params opts prefer action env cache).enabledFlag
        (prepareRun params opts prefer action env cache).availFlag
        (prepareRun params opts prefer action env cache).st).2 = Except.error e) :
    (executeXcodeBuildCommand params opts prefer action env cache).response =
      createTextResponse
        ("Error during " ++ opts.logLabel ++ " " ++ action ++ ": " ++ e.message) true ∧
    (executeXcodeBuildCommand params opts prefer action env cache).response.isError =
      some true ∧
    (executeXcodeBuildCommand params opts prefer action env cache).logs.getLast? =
      some ⟨"error",
        "Error during " ++ opts.logLabel ++ " " ++ action ++ ": " ++ e.message,
        some (!(isSpawnErrorCode e.code))⟩ ∧
    ((!(isSpawnErrorCode e.code)) = false ↔
      (e.code = some "ENOENT" ∨ e.code = some "EACCES" ∨ e.code = some "EPERM")) := by
  simp only [executeXcodeBuildCommand, hdest, hexec]
  refine ⟨rfl, rfl, ?_, ?_⟩
  · simp only [pushLog, List.getLast?_concat]
  · cases hc : e.code <;> simp [isSpawnErrorCode, hc] <;> tauto

theorem thrown_errors_are_caught_witness :
    (resolveDestination
        ⟨XcodePlatform.macOS, none, none, none, none, none, "Test Build", none⟩ =
        Except.ok "platform=macOS" ∧
      (runBuildExec false "build"
        ⟨BuildOutputMode.guided, true, false, false, false, false,
          Except.error ⟨"unused", none⟩, Except.error ⟨"unused", none⟩,
          fun _ => Except.error ⟨"spawn xcodebuild ENOENT", some "ENOENT"⟩,
          fun s => s⟩
        (prepareRun ⟨none, some "/p/x.xcodeproj", "TestScheme", "Debug", none, []⟩
          ⟨XcodePlatform.macOS, none, none, none, none, none, "Test Build", none⟩
          false "build"
          ⟨BuildOutputMode.guided, true, false, false, false, false,
            Except.error ⟨"unused", none⟩, Except.error ⟨"unused", none⟩,
            fun _ => Except.error ⟨"spawn xcodebuild ENOENT", some "ENOENT"⟩,
            fun s => s⟩
          none).enabledFlag
        (prepareRun ⟨none, some "/p/x.xcodeproj", "TestScheme", "Debug", none, []⟩
          ⟨XcodePlatform.macOS, none, none, none, none, none, "Test Build", none⟩
          false "build"
          ⟨BuildOutputMode.guided, true, false, false, false, false,
            Except.error ⟨"unused", none⟩, Except.error ⟨"unused", none⟩,
            fun _ => Except.error ⟨"spawn xcodebuild ENOENT", some "ENOENT"⟩,
            fun s => s⟩
          none).availFlag
        (prepareRun ⟨none, some "/p/x.xcodeproj", "TestScheme", "Debug", none, []⟩
          ⟨XcodePlatform.macOS, none, none, none, none, none, "Test Build", none⟩
          false "build"
          ⟨BuildOutputMode.guided, true, false, false, false, false,
            Except.error ⟨"unused", none⟩, Except.error ⟨"unused", none⟩,
            fun _ => Except.error ⟨"spawn xcodebuild ENOENT", some "ENOENT"⟩,
            fun s => s⟩
          none).st).2 =
        Except.error ⟨"spawn xcodebuild ENOENT", some "ENOENT"⟩) ∧
    ((executeXcodeBuildCommand ⟨none, some "/p/x.xcodeproj", "TestScheme", "Debug", none, []⟩
        ⟨XcodePlatform.macOS, none, none, none, none, none, "Test Build", none⟩
        false "build"
        ⟨BuildOutputMode.guided, true, false, false, false, false,
          Except.error ⟨"unused", none⟩, Except.error ⟨"unused", none⟩,
          fun _ => Except.error ⟨"spawn xcodebuild ENOENT", some "ENOENT"⟩,
          fun s => s⟩
        none).response =
        createTextResponse
          ("Error during " ++ "Test Build" ++ " " ++ "build" ++ ": " ++
            (⟨"spawn xcodebuild ENOENT", some "ENOENT"⟩ : JsError).message) true ∧
      (executeXcodeBuildCommand ⟨none, some "/p/x.xcodeproj", "TestScheme", "Debug", none, []⟩
        ⟨XcodePlatform.macOS, none, none, none, none, none, "Test Build", none⟩
        false "build"
        ⟨BuildOutputMode.guided, true, false, false, false, false,
          Except.error ⟨"unused", none⟩, Except.error ⟨"unused", none⟩,
          fun _ => Except.error ⟨"spawn xcodebuild ENOENT", some "ENOENT"⟩,
          fun s => s⟩
        none).response.isError = some true ∧
      (executeXcodeBuildCommand ⟨none, some "/p/x.xcodeproj", "TestScheme", "Debug", none, []⟩
        ⟨XcodePlatform.macOS, none, none, none, none, none, "Test Build", none⟩
        false "build"
        ⟨BuildOutputMode.guided, true, false, false, false, false,
          Except.error ⟨"unused", none⟩, Except.error ⟨"unused", none⟩,
          fun _ => Except.error ⟨"spawn xcodebuild ENOENT", some "ENOENT"⟩,
          fun s => s⟩
        none).logs.getLast? =
        some ⟨"error",
          "Error during " ++ "Test Build" ++ " " ++ "build" ++ ": " ++
            (⟨"spawn xcodebuild ENOENT", some "ENOENT"⟩ : JsError).message,
          some (!(isSpawnErrorCode
            (⟨"spawn xcodebuild ENOENT", some "ENOENT"⟩ : JsError).code))⟩ ∧
      ((!(isSpawnErrorCode (⟨"spawn xcodebuild ENOENT", some "ENOENT"⟩ : JsError).code)) =
          false ↔
        ((⟨"spawn xcodebuild ENOENT", some "ENOENT"⟩ : JsError).code = some "ENOENT" ∨
          (⟨"spawn xcodebuild ENOENT", some "ENOENT"⟩ : JsError).code = some "EACCES" ∨
          (⟨"spawn xcodebuild ENOENT", some "ENOENT"⟩ : JsError).code = some "EPERM"))) :=
  ⟨⟨rfl, rfl⟩,
    thrown_errors_are_caught ⟨none, some "/p/x.xcodeproj", "TestScheme", "Debug", none, []⟩
      ⟨XcodePlatform.macOS, none, none, none, none, none, "Test Build", none⟩
      false "build"
      ⟨BuildOutputMode.guided, true, false, false, false, false,
        Except.error ⟨"unused", none⟩, Except.error ⟨"unused", none⟩,
        fun _ => Except.error ⟨"spawn xcodebuild ENOENT", some "ENOENT"⟩,
        fun s => s⟩
      none "platform=macOS" ⟨"spawn xcodebuild ENOENT", some "ENOENT"⟩ rfl rfl⟩

theorem finishFailure_diagnostics_content (params : SharedBuildParams)
    (opts : PlatformBuildOptions) (prefer : Bool) (action : String) (env : BuildEnv)
    (pre : PreparedRun) (st2 : RunState) (wl : List GrepEntry) (w e : List String)
    (result : CmdResult) (hmode : env.outputMode = BuildOutputMode.diagnostics) :
    (finishFailure params opts prefer action env pre st2 wl w e result).response.content =
      (if e = [] then []
       else [⟨joinWithNewlines (("‚ùå Errors (" ++ toString e.length ++ ")") ::
         e.map (fun l => "- " ++ l))⟩]) ++
      (if w = [] then []
       else [⟨joinWithNewlines (("‚ö†Ô∏è Warnings (" ++ toString w.length ++ ")") ::
         w.map (fun l => "- " ++ l))⟩]) ++
      [⟨"‚ùå " ++ opts.logLabel ++ " " ++ action ++ " failed for scheme " ++
        params.scheme ++ "."⟩] := by
  simp only [finishFailure, consolidateContentForClaudeCode, hmode,
    formatDiagnosticsBlocks, pushSection, List.length_eq_zero]
  simp

theorem finishSuccess_diagnostics_content (params : SharedBuildParams)
    (opts : PlatformBuildOptions) (prefer : Bool) (action : String) (env : BuildEnv)
    (pre : PreparedRun) (st2 : RunState) (w e : List String)
    (hmode : env.outputMode = BuildOutputMode.diagnostics) :
    (finishSuccess params opts prefer action env pre st2 w e).response.content =
      (if w = [] ∧ e = [] then
        [⟨"‚úÖ " ++ opts.logLabel ++ " " ++ action ++ " succeeded for scheme " ++
          params.scheme ++ " (no warnings/errors)."⟩]
       else
        (if e = [] then []
         else [⟨joinWithNewlines (("‚ùå Errors (" ++ toString e.length ++ ")") ::
           e.map (fun l => "- " ++ l))⟩]) ++
        (if w = [] then []
         else [⟨joinWithNewlines (("‚ö†Ô∏è Warnings (" ++ toString w.length ++ ")") ::
           w.map (fun l => "- " ++ l))⟩]) ++
        [⟨"‚úÖ " ++ opts.logLabel ++ " " ++ action ++ " succeeded for scheme " ++
          params.scheme ++ "."⟩]) := by
  simp only [finishSuccess, consolidateContentForClaudeCode, hmode,
    formatDiagnosticsBlocks, pushSection, List.length_eq_zero]
  split_ifs <;> simp_all

/-- **C6.** In diagnostics mode (with the test-environment flag set, so the
pretty-printer advisory is suppressed and the classified lists reach the
formatter unchanged) the response emits at most three blocks: the
`Errors (N)` bulleted block (omitted when there are no errors), then the
`Warnings (N)` bulleted block (omitted when there are no warnings), then
exactly one terminal success or failure line; on a success with both lists
empty, a single no-warnings/errors line replaces all three. -/
theorem diagnostics_block_shape (params : SharedBuildParams)
    (opts : PlatformBuildOptions) (prefer : Bool) (action : String) (env : BuildEnv)
    (cache : Option Bool) (d : String) (r : CmdResult)
    (hmode : env.outputMode = BuildOutputMode.diagnostics)
    (htest : env.isTestEnv = true)
    (hdest : resolveDestination opts = Except.ok d)
    (hexec : (runBuildExec prefer action env
        (prepareRun params opts prefer action env cache).enabledFlag
        (prepareRun params opts prefer action env cache).availFlag
        (prepareRun params opts prefer action env cache).st).2 = Except.ok r) :
    (executeXcodeBuildCommand params opts prefer action env cache).response.content.length
      ≤ 3 ∧
    (r.success = false →
      (executeXcodeBuildCommand params opts prefer action env cache).response.content =
        (if (classifyBuildOutput r.output (r.error.getD "")).errors = [] then []
         else [⟨joinWithNewlines (("‚ùå Errors (" ++
             toString (classifyBuildOutput r.output (r.error.getD "")).errors.length ++
             ")") ::
           (classifyBuildOutput r.output (r.error.getD "")).errors.map
             (fun l => "- " ++ l))⟩]) ++
        (if (classifyBuildOutput r.output (r.error.getD "")).warnings = [] then []
         else [⟨joinWithNewlines (("‚ö†Ô∏è Warnings (" ++
             toString (classifyBuildOutput r.output (r.error.getD "")).warnings.length ++
             ")") ::
           (classifyBuildOutput r.output (r.error.getD "")).warnings.map
             (fun l => "- " ++ l))⟩]) ++
        [⟨"‚ùå " ++ opts.logLabel ++ " " ++ action ++ " failed for scheme " ++
          params.scheme ++ "."⟩]) ∧
    (r.success = true →
      (executeXcodeBuildCommand params opts prefer action env cache).response.content =
        (if (classifyBuildOutput r.output (r.error.getD "")).warnings = [] ∧
            (classifyBuildOutput r.output (r.error.getD "")).errors = [] then
          [⟨"‚úÖ " ++ opts.logLabel ++ " " ++ action ++ " succeeded for scheme " ++
            params.scheme ++ " (no warnings/errors)."⟩]
         else
          (if (classifyBuildOutput r.output (r.error.getD "")).errors = [] then []
           else [⟨joinWithNewlines (("‚ùå Errors (" ++
               toString (classifyBuildOutput r.output (r.error.getD "")).errors.length ++
               ")") ::
             (classifyBuildOutput r.output (r.error.getD "")).errors.map
               (fun l => "- " ++ l))⟩]) ++
          (if (classifyBuildOutput r.output (r.error.getD "")).warnings = [] then []
           else [⟨joinWithNewlines (("‚ö†Ô∏è Warnings (" ++
               toString
                 (classifyBuildOutput r.output (r.error.getD "")).warnings.length ++
               ")") ::
             (classifyBuildOutput r.output (r.error.getD "")).warnings.map
               (fun l => "- " ++ l))⟩]) ++
          [⟨"‚úÖ " ++ opts.logLabel ++ " " ++ action ++ " succeeded for scheme " ++
            params.scheme ++ "."⟩])) := by
  have hnp : (!env.isTestEnv) = false := by rw [htest]; rfl
  cases hs : r.success with
  | false =>
    simp only [executeXcodeBuildCommand, hdest, hexec, hs, Bool.false_eq_true, if_false,
      hnp, Bool.false_and]
    rw [finishFailure_diagnostics_content _ _ _ _ _ _ _ _ _ _ _ hmode]
    refine ⟨by split_ifs <;> simp, fun _ => rfl, fun hc => absurd hc (by simp [hs])⟩
  | true =>
    simp only [executeXcodeBuildCommand, hdest, hexec, hs, hnp, Bool.false_and,
      Bool.false_eq_true, if_false, eq_self_iff_true, if_true]
    rw [finishSuccess_diagnostics_content _ _ _ _ _ _ _ _ _ hmode]
    refine ⟨by split_ifs <;> simp, fun hc => absurd hc (by simp [hs]), fun _ => rfl⟩

theorem diagnostics_block_shape_witness :
    ((⟨BuildOutputMode.diagnostics, true, false, false, false, false,
        Except.error ⟨"unused", none⟩, Except.error ⟨"unused", none⟩,
        fun _ => Except.ok
          ⟨false, "warning: w1\nwarning: w2\nerror: e1", some "", some 65⟩,
        fun s => s⟩ : BuildEnv).outputMode = BuildOutputMode.diagnostics ∧
      (⟨BuildOutputMode.diagnostics, true, false, false, false, false,
        Except.error ⟨"unused", none⟩, Except.error ⟨"unused", none⟩,
        fun _ => Except.ok
          ⟨false, "warning: w1\nwarning: w2\nerror: e1", some "", some 65⟩,
        fun s => s⟩ : BuildEnv).isTestEnv = true ∧
      resolveDestination
        ⟨XcodePlatform.macOS, none, none, none, none, none, "Test Build", none⟩ =
        Except.ok "platform=macOS" ∧
      (runBuildExec false "build"
        ⟨BuildOutputMode.diagnostics, true, false, false, false, false,
          Except.error ⟨"unused", none⟩, Except.error ⟨"unused", none⟩,
          fun _ => Except.ok
            ⟨false, "warning: w1\nwarning: w2\nerror: e1", some "", some 65⟩,
          fun s => s⟩
        (prepareRun ⟨none, some "/p/x.xcodeproj", "S", "Debug", none, []⟩
          ⟨XcodePlatform.macOS, none, none, none, none, none, "Test Build", none⟩
          false "build"
          ⟨BuildOutputMode.diagnostics, true, false, false, false, false,
            Except.error ⟨"unused", none⟩, Except.error ⟨"unused", none⟩,
            fun _ => Except.ok
              ⟨false, "warning: w1\nwarning: w2\nerror: e1", some "", some 65⟩,
            fun s => s⟩
          none).enabledFlag
        (prepareRun ⟨none, some "/p/x.xcodeproj", "S", "Debug", none, []⟩
          ⟨XcodePlatform.macOS, none, none, none, none, none, "Test Build", none⟩
          false "build"
          ⟨BuildOutputMode.diagnostics, true, false, false, false, false,
            Except.error ⟨"unused", none⟩, Except.error ⟨"unused", none⟩,
            fun _ => Except.ok
              ⟨false, "warning: w1\nwarning: w2\nerror: e1", some "", some 65⟩,
            fun s => s⟩
          none).availFlag
        (prepareRun ⟨none, some "/p/x.xcodeproj", "S", "Debug", none, []⟩
          ⟨XcodePlatform.macOS, none, none, none, none, none, "Test Build", none⟩
          false "build"
          ⟨BuildOutputMode.diagnostics, true, false, false, false, false,
            Except.error ⟨"unused", none⟩, Except.error ⟨"unused", none⟩,
            fun _ => Except.ok
              ⟨false, "warning: w1\nwarning: w2\nerror: e1", some "", some 65⟩,
            fun s => s⟩
          none).st).2 =
        Except.ok ⟨false, "warning: w1\nwarning: w2\nerror: e1", some "", some 65⟩) ∧
    ((executeXcodeBuildCommand ⟨none, some "/p/x.xcodeproj", "S", "Debug", none, []⟩
        ⟨XcodePlatform.macOS, none, none, none, none, none, "Test Build", none⟩
        false "build"
        ⟨BuildOutputMode.diagnostics, true, false, false, false, false,
          Except.error ⟨"unused", none⟩, Except.error ⟨"unused", none⟩,
          fun _ => Except.ok
            ⟨false, "warning: w1\nwarning: w2\nerror: e1", some "", some 65⟩,
          fun s => s⟩
        none).response.content.length ≤ 3 ∧
      ((⟨false, "warning: w1\nwarning: w2\nerror: e1", some "", some 65⟩ :
          CmdResult).success = false →
        (executeXcodeBuildCommand ⟨none, some "/p/x.xcodeproj", "S", "Debug", none, []⟩
          ⟨XcodePlatform.macOS, none, none, none, none, none, "Test Build", none⟩
          false "build"
          ⟨BuildOutputMode.diagnostics, true, false, false, false, false,
            Except.error ⟨"unused", none⟩, Except.error ⟨"unused", none⟩,
            fun _ => Except.ok
              ⟨false, "warning: w1\nwarning: w2\nerror: e1", some "", some 65⟩,
            fun s => s⟩
          none).response.content =
          (if (classifyBuildOutput
              (⟨false, "warning: w1\nwarning: w2\nerror: e1", some "", some 65⟩ :
                CmdResult).output
              ((⟨false, "warning: w1\nwarning: w2\nerror: e1", some "", some 65⟩ :
                CmdResult).error.getD "")).errors = [] then []
           else [⟨joinWithNewlines (("‚ùå Errors (" ++
               toString (classifyBuildOutput
                 (⟨false, "warning: w1\nwarning: w2\nerror: e1", some "", some 65⟩ :
                   CmdResult).output
                 ((⟨false, "warning: w1\nwarning: w2\nerror: e1", some "", some 65⟩ :
                   CmdResult).error.getD "")).errors.length ++ ")") ::
             (classifyBuildOutput
               (⟨false, "warning: w1\nwarning: w2\nerror: e1", some "", some 65⟩ :
                 CmdResult).output
               ((⟨false, "warning: w1\nwarning: w2\nerror: e1", some "", some 65⟩ :
                 CmdResult).error.getD "")).errors.map (fun l => "- " ++ l))⟩]) ++
          (if (classifyBuildOutput
              (⟨false, "warning: w1\nwarning: w2\nerror: e1", some "", some 65⟩ :
                CmdResult).output
              ((⟨false, "warning: w1\nwarning: w2\nerror: e1", some "", some 65⟩ :
                CmdResult).error.getD "")).warnings = [] then []
           else [⟨joinWithNewlines (("‚ö†Ô∏è Warnings (" ++
               toString (classifyBuildOutput
                 (⟨false, "warning: w1\nwarning: w2\nerror: e1", some "", some 65⟩ :
                   CmdResult).output
                 ((⟨false, "warning: w1\nwarning: w2\nerror: e1", some "", some 65⟩ :
                   CmdResult).error.getD "")).warnings.length ++ ")") ::
             (classifyBuildOutput
               (⟨false, "warning: w1\nwarning: w2\nerror: e1", some "", some 65⟩ :
                 CmdResult).output
               ((⟨false, "warning: w1\nwarning: w2\nerror: e1", some "", some 65⟩ :
                 CmdResult).error.getD "")).warnings.map (fun l => "- " ++ l))⟩]) ++
          [⟨"‚ùå " ++ "Test Build" ++ " " ++ "build" ++ " failed for scheme " ++ "S" ++
            "."⟩]) ∧
      ((⟨false, "warning: w1\nwarning: w2\nerror: e1", some "", some 65⟩ :
          CmdResult).success = true →
        (executeXcodeBuildCommand ⟨none, some "/p/x.xcodeproj", "S", "Debug", none, []⟩
          ⟨XcodePlatform.macOS, none, none, none, none, none, "Test Build", none⟩
          false "build"
          ⟨BuildOutputMode.diagnostics, true, false, false, false, false,
            Except.error ⟨"unused", none⟩, Except.error ⟨"unused", none⟩,
            fun _ => Except.ok
              ⟨false, "warning: w1\nwarning: w2\nerror: e1", some "", some 65⟩,
            fun s => s⟩
          none).response.content =
          (if (classifyBuildOutput
              (⟨false, "warning: w1\nwarning: w2\nerror: e1", some "", some 65⟩ :
                CmdResult).output
              ((⟨false, "warning: w1\nwarning: w2\nerror: e1", some "", some 65⟩ :
                CmdResult).error.getD "")).warnings = [] ∧
              (classifyBuildOutput
                (⟨false, "warning: w1\nwarning: w2\nerror: e1", some "", some 65⟩ :
                  CmdResult).output
                ((⟨false, "warning: w1\nwarning: w2\nerror: e1", some "", some 65⟩ :
                  CmdResult).error.getD "")).errors = [] then
            [⟨"‚úÖ " ++ "Test Build" ++ " " ++ "build" ++ " succeeded for scheme " ++ "S" ++
              " (no warnings/errors)."⟩]
           else
            (if (classifyBuildOutput
                (⟨false, "warning: w1\nwarning: w2\nerror: e1", some "", some 65⟩ :
                  CmdResult).output
                ((⟨false, "warning: w1\nwarning: w2\nerror: e1", some "", some 65⟩ :
                  CmdResult).error.getD "")).errors = [] then []
             else [⟨joinWithNewlines (("‚ùå Errors (" ++
                 toString (classifyBuildOutput
                   (⟨false, "warning: w1\nwarning: w2\nerror: e1", some "", some 65⟩ :
                     CmdResult).output
                   ((⟨false, "warning: w1\nwarning: w2\nerror: e1", some "", some 65⟩ :
                     CmdResult).error.getD "")).errors.length ++ ")") ::
               (classifyBuildOutput
                 (⟨false, "warning: w1\nwarning: w2\nerror: e1", some "", some 65⟩ :
                   CmdResult).output
                 ((⟨false, "warning: w1\nwarning: w2\nerror: e1", some "", some 65⟩ :
                   CmdResult).error.getD "")).errors.map (fun l => "- " ++ l))⟩]) ++
            (if (classifyBuildOutput
                (⟨false, "warning: w1\nwarning: w2\nerror: e1", some "", some 65⟩ :
                  CmdResult).output
                ((⟨false, "warning: w1\nwarning: w2\nerror: e1", some "", some 65⟩ :
                  CmdResult).error.getD "")).warnings = [] then []
             else [⟨joinWithNewlines (("‚ö†Ô∏è Warnings (" ++
                 toString (classifyBuildOutput
                   (⟨false, "warning: w1\nwarning: w2\nerror: e1", some "", some 65⟩ :
                     CmdResult).output
                   ((⟨false, "warning: w1\nwarning: w2\nerror: e1", some "", some 65⟩ :
                     CmdResult).error.getD "")).warnings.length ++ ")") ::
               (classifyBuildOutput
                 (⟨false, "warning: w1\nwarning: w2\nerror: e1", some "", some 65⟩ :
                   CmdResult).output
                 ((⟨false, "warning: w1\nwarning: w2\nerror: e1", some "", some 65⟩ :
                   CmdResult).error.getD "")).warnings.map (fun l => "- " ++ l))⟩]) ++
            [⟨"‚úÖ " ++ "Test Build" ++ " " ++ "build" ++ " succeeded for scheme " ++
              "S" ++ "."⟩]))) :=
  ⟨⟨rfl, rfl, rfl, rfl⟩,
    diagnostics_block_shape ⟨none, some "/p/x.xcodeproj", "S", "Debug", none, []⟩
      ⟨XcodePlatform.macOS, none, none, none, none, none, "Test Build", none⟩
      false "build"
      ⟨BuildOutputMode.diagnostics, true, false, false, false, false,
        Except.error ⟨"unused", none⟩, Except.error ⟨"unused", none⟩,
        fun _ => Except.ok
          ⟨false, "warning: w1\nwarning: w2\nerror: e1", some "", some 65⟩,
        fun s => s⟩
      none "platform=macOS"
      ⟨false, "warning: w1\nwarning: w2\nerror: e1", some "", some 65⟩
      rfl rfl rfl rfl⟩

theorem finishFailure_guided_lastBlock (params : SharedBuildParams)
    (opts : PlatformBuildOptions) (prefer : Bool) (action : String) (env : BuildEnv)
    (pre : PreparedRun) (st2 : RunState) (wl : List GrepEntry) (w e : List String)
    (result : CmdResult)
    (hmode : env.outputMode = BuildOutputMode.guided)
    (hen : pre.enabledFlag = true) (hav : pre.availFlag = true)
    (haction : action = "build") (hprefer : prefer = false) :
    (wl = [] →
      (finishFailure params opts prefer action env pre st2 wl w e
          result).response.content.getLast? = some ⟨xcodemakeRetrySuggestion⟩) ∧
    (wl ≠ [] →
      (finishFailure params opts prefer action env pre st2 wl w e
          result).response.content.getLast? =
        some ⟨"‚ùå " ++ opts.logLabel ++ " " ++ action ++ " failed for scheme " ++
          params.scheme ++ "."⟩) := by
  constructor
  · intro hwl
    simp only [finishFailure, consolidateContentForClaudeCode, createTextResponse,
      pushLog, hmode, hen, hav, haction, hprefer, hwl]
    split_ifs <;> simp_all [List.getLast?_concat]
  · intro hwl
    simp only [finishFailure, consolidateContentForClaudeCode, createTextResponse,
      pushLog, hmode, hen, hav, haction, hprefer]
    split_ifs <;> simp_all [List.getLast?_concat]

/-- **C7 (amended).** On a failed build over the active xcodemake path in
guided mode, the retry suggestion is appended exactly when no stdout line
matched the warning/error markers; stderr-derived error entries alone do
not suppress the suggestion (when any stdout line was marker-classified,
the terminal failure line stays last and no suggestion is appended). -/
theorem xcodemake_retry_suggestion_amended (params : SharedBuildParams)
    (opts : PlatformBuildOptions) (prefer : Bool) (action : String) (env : BuildEnv)
    (cache : Option Bool) (d : String) (r : CmdResult)
    (hmode : env.outputMode = BuildOutputMode.guided)
    (hen : (prepareRun params opts prefer action env cache).enabledFlag = true)
    (hav : (prepareRun params opts prefer action env cache).availFlag = true)
    (haction : action = "build") (hprefer : prefer = false)
    (hdest : resolveDestination opts = Except.ok d)
    (hexec : (runBuildExec prefer action env
        (prepareRun params opts prefer action env cache).enabledFlag
        (prepareRun params opts prefer action env cache).availFlag
        (prepareRun params opts prefer action env cache).st).2 = Except.ok r)
    (hfail : r.success = false) :
    (grepWarningsAndErrors r.output = [] →
      (executeXcodeBuildCommand params opts prefer action env
          cache).response.content.getLast? = some ⟨xcodemakeRetrySuggestion⟩) ∧
    (grepWarningsAndErrors r.output ≠ [] →
      (executeXcodeBuildCommand params opts prefer action env
          cache).response.content.getLast? =
        some ⟨"‚ùå " ++ opts.logLabel ++ " " ++ action ++ " failed for scheme " ++
          params.scheme ++ "."⟩) := by
  simp only [executeXcodeBuildCommand, hdest, hexec, hfail, Bool.false_eq_true, if_false]
  exact finishFailure_guided_lastBlock _ _ _ _ _ _ _ _ _ _ _ hmode hen hav haction hprefer

theorem xcodemake_retry_suggestion_amended_witness :
    ((⟨BuildOutputMode.guided, true, true, true, true, true,
        Except.ok ⟨false, "", some "make: fatal", some 2⟩, Except.error ⟨"unused", none⟩,
        fun _ => Except.error ⟨"unused", none⟩, fun s => s⟩ : BuildEnv).outputMode =
        BuildOutputMode.guided ∧
      (prepareRun ⟨none, some "/p/x.xcodeproj", "S", "Debug", none, []⟩
        ⟨XcodePlatform.macOS, none, none, none, none, none, "Test Build", none⟩
        false "build"
        ⟨BuildOutputMode.guided, true, true, true, true, true,
          Except.ok ⟨false, "", some "make: fatal", some 2⟩, Except.error ⟨"unused", none⟩,
          fun _ => Except.error ⟨"unused", none⟩, fun s => s⟩
        none).enabledFlag = true ∧
      (prepareRun ⟨none, some "/p/x.xcodeproj", "S", "Debug", none, []⟩
        ⟨XcodePlatform.macOS, none, none, none, none, none, "Test Build", none⟩
        false "build"
        ⟨BuildOutputMode.guided, true, true, true, true, true,
          Except.ok ⟨false, "", some "make: fatal", some 2⟩, Except.error ⟨"unused", none⟩,
          fun _ => Except.error ⟨"unused", none⟩, fun s => s⟩
        none).availFlag = true ∧
      resolveDestination
        ⟨XcodePlatform.macOS, none, none, none, none, none, "Test Build", none⟩ =
        Except.ok "platform=macOS" ∧
      (runBuildExec false "build"
        ⟨BuildOutputMode.guided, true, true, true, true, true,
          Except.ok ⟨false, "", some "make: fatal", some 2⟩, Except.error ⟨"unused", none⟩,
          fun _ => Except.error ⟨"unused", none⟩, fun s => s⟩
        (prepareRun ⟨none, some "/p/x.xcodeproj", "S", "Debug", none, []⟩
          ⟨XcodePlatform.macOS, none, none, none, none, none, "Test Build", none⟩
          false "build"
          ⟨BuildOutputMode.guided, true, true, true, true, true,
            Except.ok ⟨false, "", some "make: fatal", some 2⟩,
            Except.error ⟨"unused", none⟩,
            fun _ => Except.error ⟨"unused", none⟩, fun s => s⟩
          none).enabledFlag
        (prepareRun ⟨none, some "/p/x.xcodeproj", "S", "Debug", none, []⟩
          ⟨XcodePlatform.macOS, none, none, none, none, none, "Test Build", none⟩
          false "build"
          ⟨BuildOutputMode.guided, true, true, true, true, true,
            Except.ok ⟨false, "", some "make: fatal", some 2⟩,
            Except.error ⟨"unused", none⟩,
            fun _ => Except.error ⟨"unused", none⟩, fun s => s⟩
          none).availFlag
        (prepareRun ⟨none, some "/p/x.xcodeproj", "S", "Debug", none, []⟩
          ⟨XcodePlatform.macOS, none, none, none, none, none, "Test Build", none⟩
          false "build"
          ⟨BuildOutputMode.guided, true, true, true, true, true,
            Except.ok ⟨false, "", some "make: fatal", some 2⟩,
            Except.error ⟨"unused", none⟩,
            fun _ => Except.error ⟨"unused", none⟩, fun s => s⟩
          none).st).2 =
        Except.ok ⟨false, "", some "make: fatal", some 2⟩ ∧
      (⟨false, "", some "make: fatal", some 2⟩ : CmdResult).success = false) ∧
    ((grepWarningsAndErrors (⟨false, "", some "make: fatal", some 2⟩ :
          CmdResult).output = [] →
      (executeXcodeBuildCommand ⟨none, some "/p/x.xcodeproj", "S", "Debug", none, []⟩
          ⟨XcodePlatform.macOS, none, none, none, none, none, "Test Build", none⟩
          false "build"
          ⟨BuildOutputMode.guided, true, true, true, true, true,
            Except.ok ⟨false, "", some "make: fatal", some 2⟩,
            Except.error ⟨"unused", none⟩,
            fun _ => Except.error ⟨"unused", none⟩, fun s => s⟩
          none).response.content.getLast? = some ⟨xcodemakeRetrySuggestion⟩) ∧
      (grepWarningsAndErrors (⟨false, "", some "make: fatal", some 2⟩ :
          CmdResult).output ≠ [] →
        (executeXcodeBuildCommand ⟨none, some "/p/x.xcodeproj", "S", "Debug", none, []⟩
          ⟨XcodePlatform.macOS, none, none, none, none, none, "Test Build", none⟩
          false "build"
          ⟨BuildOutputMode.guided, true, true, true, true, true,
            Except.ok ⟨false, "", some "make: fatal", some 2⟩,
            Except.error ⟨"unused", none⟩,
            fun _ => Except.error ⟨"unused", none⟩, fun s => s⟩
          none).response.content.getLast? =
          some ⟨"‚ùå " ++ "Test Build" ++ " " ++ "build" ++ " failed for scheme " ++
            "S" ++ "."⟩)) :=
  ⟨⟨rfl, rfl, rfl, rfl, rfl, rfl⟩,
    xcodemake_retry_suggestion_amended ⟨none, some "/p/x.xcodeproj", "S", "Debug", none, []⟩
      ⟨XcodePlatform.macOS, none, none, none, none, none, "Test Build", none⟩
      false "build"
      ⟨BuildOutputMode.guided, true, true, true, true, true,
        Except.ok ⟨false, "", some "make: fatal", some 2⟩, Except.error ⟨"unused", none⟩,
        fun _ => Except.error ⟨"unused", none⟩, fun s => s⟩
      none "platform=macOS" ⟨false, "", some "make: fatal", some 2⟩
      rfl rfl rfl rfl rfl rfl rfl rfl⟩

/-- **C7 (counterexample to the claim as stated).** A failed xcodemake-path
build whose stderr produced a classified error entry (`[stderr] make: fatal`
— so the classified error list is non-empty) still gets the retry
suggestion appended: the source gates the suggestion only on the stdout
marker scan, not on the classified warning/error lists. -/
theorem xcodemake_retry_suggestion_counterexample :
    (classifyBuildOutput "" "make: fatal").errors ≠ [] ∧
    (executeXcodeBuildCommand ⟨none, some "/p/x.xcodeproj", "S", "Debug", none, []⟩
        ⟨XcodePlatform.macOS, none, none, none, none, none, "Test Build", none⟩
        false "build"
        ⟨BuildOutputMode.guided, true, true, true, true, true,
          Except.ok ⟨false, "", some "make: fatal", some 2⟩,
          Except.error ⟨"unused", none⟩,
          fun _ => Except.error ⟨"unused", none⟩, fun s => s⟩
        none).response.content.getLast? = some ⟨xcodemakeRetrySuggestion⟩ := by
  constructor
  · decide
  · decide

theorem classify_concrete_check :
    classifyBuildOutput "warning: w\nerror: e\nerror: e" "boom\n\nboom" =
      ⟨["warning: w"], ["error: e", "[stderr] boom"]⟩ := by decide

theorem grep_concrete_check :
    grepWarningsAndErrors "x warning: and error: both" =
      [⟨EntryType.warning, "x warning: and error: both"⟩] := by decide

end BuildUtils
